import Mathlib

/-!
# Daisyverse: order and payment lifecycle

A shallow embedding of the order routes (`server/routes/orders.js`), the payment
routes (`server/routes/payments.js`), the order model and its two pre-save hooks
(`server/models/Order.js`) and the notification service
(`server/services/emailService.js`).

Conventions of the embedding:

* JavaScript numbers that carry money (`totalAmount`, `taxAmount`, `price`) are exact
  rationals; quantities and stock levels are integers.
* A request field that may be absent is an `Option`; a present string may be empty.
  JavaScript truthiness of such a field is spelled out by `falsyStr`, `falsyNum`.
* The handlers are state-passing functions on a `Store`; the clock, the text the engine
  prints for the random draw, the HMAC function, the number-to-string conversion, the
  payment gateway and the mail transport are explicit inputs.
* `save()` validates a document against the schema before it runs the pre-save hooks
  and writes. For a new document the required `orderId` decides (`validateBeforeSave`);
  a stored order is a document of the collection and satisfies the schema, so on a
  loaded document only a path that a route fills from the request is checked
  (`paymentStatus` in the payment-status route).
-/

namespace Daisyverse

/-! ## JavaScript helpers -/

/-- Truthiness test `!x` for an optional string field: absent or empty. -/
def falsyStr : Option String → Bool
  | none => true
  | some s => s == ""

/-- Truthiness test `!x` for an optional numeric field: absent or zero. -/
def falsyNum : Option ℚ → Bool
  | none => true
  | some q => q == 0

/-- Code points that `Number(string)` strips from both ends (white space and line
terminators of the language). -/
def isJsWhitespace (c : Char) : Bool :=
  let n := c.toNat
  n == 0x09 || n == 0x0A || n == 0x0B || n == 0x0C || n == 0x0D || n == 0x20 ||
  n == 0xA0 || n == 0x1680 || (0x2000 ≤ n && n ≤ 0x200A) || n == 0x2028 ||
  n == 0x2029 || n == 0x202F || n == 0x205F || n == 0x3000 || n == 0xFEFF

def isDecDigit (c : Char) : Bool := '0' ≤ c && c ≤ '9'

def isHexDigit (c : Char) : Bool :=
  isDecDigit c || ('a' ≤ c && c ≤ 'f') || ('A' ≤ c && c ≤ 'F')

def isOctDigit (c : Char) : Bool := '0' ≤ c && c ≤ '7'

def isBinDigit (c : Char) : Bool := c == '0' || c == '1'

/-- A non-empty run of characters all satisfying `p`. -/
def allDigits (p : Char → Bool) (cs : List Char) : Bool :=
  !cs.isEmpty && cs.all p

/-- Exponent part body, after the `e`: an optional sign and at least one digit. -/
def isExponentBody : List Char → Bool
  | '+' :: cs => allDigits isDecDigit cs
  | '-' :: cs => allDigits isDecDigit cs
  | cs => allDigits isDecDigit cs

/-- What may follow the mantissa: nothing, or an exponent part. -/
def isOptExponent : List Char → Bool
  | [] => true
  | 'e' :: cs => isExponentBody cs
  | 'E' :: cs => isExponentBody cs
  | _ => false

/-- Unsigned decimal literal of the string-to-number grammar:
`Infinity`, `digits [. [digits]] [exp]` or `. digits [exp]`. -/
def isUnsignedDecimal (cs : List Char) : Bool :=
  if cs == "Infinity".data then true
  else
    let intPart := cs.takeWhile isDecDigit
    let rest := cs.dropWhile isDecDigit
    match rest with
    | '.' :: rest1 =>
      let fracPart := rest1.takeWhile isDecDigit
      let rest2 := rest1.dropWhile isDecDigit
      (!intPart.isEmpty || !fracPart.isEmpty) && isOptExponent rest2
    | _ => !intPart.isEmpty && isOptExponent rest

/-- Numeric literal of the string-to-number grammar: a signed decimal literal or an
unsigned binary, octal or hexadecimal integer. -/
def isStrNumericLiteral : List Char → Bool
  | '0' :: 'x' :: cs => allDigits isHexDigit cs
  | '0' :: 'X' :: cs => allDigits isHexDigit cs
  | '0' :: 'o' :: cs => allDigits isOctDigit cs
  | '0' :: 'O' :: cs => allDigits isOctDigit cs
  | '0' :: 'b' :: cs => allDigits isBinDigit cs
  | '0' :: 'B' :: cs => allDigits isBinDigit cs
  | '+' :: cs => isUnsignedDecimal cs
  | '-' :: cs => isUnsignedDecimal cs
  | cs => isUnsignedDecimal cs

/-- Trim applied by `Number(string)` before parsing. -/
def jsTrim (cs : List Char) : List Char :=
  ((cs.dropWhile isJsWhitespace).reverse.dropWhile isJsWhitespace).reverse

/-- The test `isNaN(Number(s))` for a string `s`: the trimmed string is neither empty
(which converts to 0) nor a numeric literal. -/
def stringIsNaN (s : String) : Bool :=
  let cs := jsTrim s.data
  !(cs.isEmpty || isStrNumericLiteral cs)

/-- `Math.round` on a rational: the nearest integer, halves rounded up. -/
def mathRound (q : ℚ) : Int := Int.floor (q + 1 / 2)

/-! ## Data model (`server/models/Order.js`) -/

/-- Product identifier of a line item as it arrives in the request: a JSON number or a
JSON string. -/
inductive ProductId where
  | num (n : ℚ)
  | str (s : String)
  deriving DecidableEq

/-- Line item of a creation request. -/
structure Item where
  productId : ProductId
  name : String
  price : ℚ
  quantity : Int
  color : Option String
  size : Option String
  image : Option String
  deriving DecidableEq

/-- Line item as the schema stores it: `productId` is cast to a string. -/
structure OrderItem where
  productId : String
  name : String
  price : ℚ
  quantity : Int
  color : Option String
  size : Option String
  image : Option String
  deriving DecidableEq

/-- Stored `customerDetails` sub-document. -/
structure CustomerDetails where
  userId : String
  name : String
  email : String
  phone : String
  address : String
  city : String
  state : String
  zipCode : String
  country : String
  deriving DecidableEq

/-- Stored `paymentDetails` sub-document; a field is `none` while unset. -/
structure PaymentDetails where
  razorpayOrderId : Option String
  razorpayPaymentId : Option String
  razorpaySignature : Option String
  deriving DecidableEq

/-- An order document. `orderId = ""` stands for a document whose id is not yet set
(the hook tests `!this.orderId`); `paymentStatus = none` for an unset status. -/
structure Order where
  orderId : String
  customerDetails : CustomerDetails
  items : List OrderItem
  totalAmount : ℚ
  paymentStatus : Option String
  paymentMethod : String
  paymentDetails : PaymentDetails
  orderStatus : String
  shippingMethod : String
  shippingCost : ℚ
  taxAmount : ℚ
  trackingNumber : Option String
  notes : Option String
  orderDate : Nat
  updatedAt : Nat
  deriving DecidableEq

/-- Modelled from the spec: the product model (`server/models/Product.js`) is not part
of the sources; a product is its stock level, the only field the order routes use. -/
structure Product where
  stock : Int
  deriving DecidableEq

/-- Modelled from the spec: the product collection as a find-by-id map from structured
keys to products. -/
abbrev ProductStore := String → Option Product

/-- The persistent state: the order collection (in insertion order) and the product
collection. -/
structure Store where
  orders : List Order
  products : ProductStore

/-- The store before any request. -/
def Store.empty : Store := ⟨[], fun _ => none⟩

/-- Query `Order.findOne` by `orderId`: the first stored order with that id. -/
def findOrder (orders : List Order) (orderId : String) : Option Order :=
  orders.find? (fun o => o.orderId == orderId)

/-- Write back a loaded document: the document found under `orderId` is replaced. -/
def replaceOrder (orderId : String) (o' : Order) : List Order → List Order
  | [] => []
  | o :: rest =>
    if o.orderId == orderId then o' :: rest else o :: replaceOrder orderId o' rest

/-- Update `$inc` of `stock` by `delta` through `Product.findByIdAndUpdate`: no effect when the
product does not exist. -/
def incStock (products : ProductStore) (key : String) (delta : Int) : ProductStore :=
  fun k => if k = key then (products k).map (fun p => ⟨p.stock + delta⟩) else products k

/-! ## Pre-save hooks of the order model -/

/-- Method `substr(start, len)` on a string. -/
def substr (start len : Nat) (cs : List Char) : List Char := (cs.drop start).take len

/-- Method `slice(-n)` on a string: its last `n` characters. -/
def sliceLast (n : Nat) (cs : List Char) : List Char := cs.drop (cs.length - n)

/-- The id assembled by the first hook from `Date.now()` and from `randomBase36`, the
string that `Math.random().toString(36)` evaluates to (`"0.i"` for the draw 0.5, `"0"`
for the draw 0). -/
def generateOrderId (now : Nat) (randomBase36 : String) : String :=
  String.mk ("DAISY".data ++ sliceLast 6 (Nat.toDigits 10 now) ++
    (substr 2 5 randomBase36.data).map Char.toUpper)

/-- First `pre('save')` hook: generate the order id of a new document that has none,
and refresh `updatedAt`. -/
def preSaveOrderId (isNew : Bool) (idNow : Nat) (randomBase36 : String) (updatedNow : Nat)
    (o : Order) : Order :=
  let o1 :=
    if isNew && o.orderId == "" then { o with orderId := generateOrderId idNow randomBase36 }
    else o
  { o1 with updatedAt := updatedNow }

/-- Second `pre('save')` hook: recompute the tax when the total was modified or the
document is new. -/
def preSaveTax (isNew totalModified : Bool) (o : Order) : Order :=
  if totalModified || isNew then { o with taxAmount := o.totalAmount * (18 / 100) } else o

/-- The hooks in registration order, as `save()` runs them after validation and before
writing. -/
def preSave (isNew totalModified : Bool) (idNow : Nat) (randomBase36 : String)
    (updatedNow : Nat) (o : Order) : Order :=
  preSaveTax isNew totalModified (preSaveOrderId isNew idNow randomBase36 updatedNow o)

/-- Validation that `save()` runs on a new document before any pre-save hook. Of the
schema's validators only `orderId: required` is embedded: a document fails it exactly
when its `orderId` is unset, and the other validators can only reject more. -/
def validateBeforeSave (o : Order) : Bool := o.orderId != ""

/-- The `paymentStatus` values the schema admits. -/
def paymentStatusEnum : List String := ["pending", "paid", "failed", "refunded"]

/-- The enum validator of `paymentStatus`: an unset status passes, a set one must be
one of the schema's values. -/
def paymentStatusValid : Option String → Bool
  | none => true
  | some s => paymentStatusEnum.contains s

/-- A stored order as it is read back: an unset `paymentStatus` takes the schema
default. -/
def readBack (o : Order) : Order :=
  { o with paymentStatus := some (o.paymentStatus.getD "pending") }

/-! ## Configuration, responses and external services -/

/-- Process environment read by the routes and the mail service, together with the
HMAC-SHA256 function (`key`, `message` to hex digest) and the conversion of a number
to a string, both taken as fixed functions. -/
structure Config where
  hmacSha256Hex : String → String → String
  numberToString : ℚ → String
  RAZORPAY_KEY_SECRET : Option String
  RAZORPAY_KEY_ID : Option String
  EMAIL_USER : Option String
  OWNER_EMAIL : Option String

/-- Expression `process.env.X || fallback`: the fallback when unset or empty. -/
def envOr (v : Option String) (fallback : String) : String :=
  if falsyStr v then fallback else v.getD fallback

/-- The key used by the verify route. -/
def keySecret (cfg : Config) : String := envOr cfg.RAZORPAY_KEY_SECRET "your_key_secret"

/-- The public key id returned by the create-order route. -/
def keyId (cfg : Config) : String := envOr cfg.RAZORPAY_KEY_ID "rzp_test_your_key_id"

/-- Payload of a JSON response (`data`, or `error` on a 500). `validationError` is the
`error` of a save that validation rejected; its text is composed by the persistence
library and is not modelled. -/
inductive Payload where
  | none
  | error (msg : String)
  | validationError
  | order (o : Order)
  | created (orderId : String) (o : Order)
  | gatewayOrder (razorpayOrderId : String) (amount : Int) (currency : String) (key : String)
  | verified (orderId : String) (paymentId : String)
  | paymentStatus (paymentStatus : Option String) (paymentDetails : PaymentDetails)
      (orderStatus : String)
  deriving DecidableEq

/-- An HTTP response: status code, `success`, `message` (empty when absent) and payload. -/
structure Response where
  status : Nat
  success : Bool
  message : String
  data : Payload
  deriving DecidableEq

/-- A failure response: `success: false` and a message. -/
def failure (status : Nat) (message : String) : Response := ⟨status, false, message, Payload.none⟩

def missingOrderDetails : Response := failure 400 "Missing required order details"

def missingCustomerDetail (field : String) : Response :=
  failure 400 ("Missing customer detail: " ++ field)

def emptyItems : Response := failure 400 "Order must contain at least one item"

def productNotFound (item : Item) : Response := failure 404 ("Product not found: " ++ item.name)

def insufficientStock (item : Item) (p : Product) : Response :=
  failure 400 ("Insufficient stock for " ++ item.name ++ ". Available: " ++ toString p.stock)

def orderNotFound : Response := failure 404 "Order not found"

def accessDenied : Response := failure 403 "Access denied"

def amountAndOrderIdRequired : Response := failure 400 "Amount and order ID are required"

def paymentDetailsRequired : Response := failure 400 "All payment details are required"

def invalidSignature : Response := failure 400 "Invalid payment signature"

/-- The 500 of the create route's `catch` when `save()` is rejected by validation. -/
def createFailed : Response := ⟨500, false, "Failed to create order", Payload.validationError⟩

/-- The 500 of the payment-status route's `catch` when `save()` is rejected by
validation. -/
def updateFailed : Response :=
  ⟨500, false, "Failed to update payment status", Payload.validationError⟩

/-- What `transporter.sendMail` is given (the HTML body is not modelled). -/
structure MailOptions where
  sender : Option String
  recipient : Option String
  subject : String
  deriving DecidableEq

/-- The mail transport: a message id on success, an error message when it raises. -/
abbrev Transport := MailOptions → Except String String

/-- Record returned by the two send operations. -/
inductive MailResult where
  | sent (messageId : String)
  | failed (error : String)
  deriving DecidableEq

/-- Argument of the two send operations. -/
structure OrderDetails where
  orderId : String
  customerDetails : CustomerDetails
  items : List OrderItem
  totalAmount : ℚ
  orderDate : Nat

/-- Operation `sendOrderNotification`: mail to the shop owner; a transport error is caught
and returned as a failure record. -/
def sendOrderNotification (cfg : Config) (transport : Transport) (d : OrderDetails) :
    MailResult :=
  let mailOptions : MailOptions :=
    { sender := cfg.EMAIL_USER
      recipient := if falsyStr cfg.OWNER_EMAIL then cfg.EMAIL_USER else cfg.OWNER_EMAIL
      subject := "New Order Received - " ++ d.orderId }
  match transport mailOptions with
  | .ok messageId => MailResult.sent messageId
  | .error e => MailResult.failed e

/-- Operation `sendCustomerConfirmation`: mail to the customer; a transport error is
caught and returned as a failure record. -/
def sendCustomerConfirmation (cfg : Config) (transport : Transport) (d : OrderDetails) :
    MailResult :=
  let mailOptions : MailOptions :=
    { sender := cfg.EMAIL_USER
      recipient := some d.customerDetails.email
      subject := "Order Confirmation - " ++ d.orderId }
  match transport mailOptions with
  | .ok messageId => MailResult.sent messageId
  | .error e => MailResult.failed e

/-- Request to the gateway's `orders.create`. -/
structure GatewayRequest where
  amount : Int
  currency : String
  receipt : String
  notesOrderId : String
  notesUserId : String
  deriving DecidableEq

/-- Order object returned by the gateway. -/
structure GatewayOrder where
  id : String
  amount : Int
  currency : String
  deriving DecidableEq

/-- The payment gateway: an order, or the message of the error it raises. -/
abbrev Gateway := GatewayRequest → Except String GatewayOrder

/-! ## Order routes (`server/routes/orders.js`) -/

/-- The `customerDetails` object of a creation request. -/
structure CustomerInput where
  userId : Option String
  name : Option String
  email : Option String
  phone : Option String
  address : Option String
  city : Option String
  state : Option String
  zipCode : Option String
  country : Option String
  deriving DecidableEq

/-- The `items` field of a creation request: absent, a JSON value that is not an array
(truthy or not), or an array of line items. -/
inductive ItemsField where
  | absent
  | nonArray (truthy : Bool)
  | array (xs : List Item)
  deriving DecidableEq

/-- The fields the create route reads from the request body. -/
structure CreateBody where
  customerDetails : Option CustomerInput
  items : ItemsField
  totalAmount : Option ℚ
  orderDate : Option Nat
  deriving DecidableEq

def requiredCustomerFields : List String :=
  ["name", "email", "phone", "address", "city", "state", "zipCode"]

/-- Property access `customerDetails[field]`. -/
def CustomerInput.get (cd : CustomerInput) (field : String) : Option String :=
  if field = "name" then cd.name
  else if field = "email" then cd.email
  else if field = "phone" then cd.phone
  else if field = "address" then cd.address
  else if field = "city" then cd.city
  else if field = "state" then cd.state
  else if field = "zipCode" then cd.zipCode
  else if field = "country" then cd.country
  else if field = "userId" then cd.userId
  else none

/-- Truthiness test `!items`. -/
def ItemsField.falsy : ItemsField → Bool
  | .absent => true
  | .nonArray truthy => !truthy
  | .array _ => false

/-- Input validation of the create route (lines 13 to 38): the first failing check's
response, or the item list when every check passes. -/
def validateCreate (body : CreateBody) : Except Response (CustomerInput × List Item × ℚ) :=
  match body.customerDetails with
  | none => .error missingOrderDetails
  | some cd =>
    if body.items.falsy || falsyNum body.totalAmount then .error missingOrderDetails
    else
      match requiredCustomerFields.find? (fun f => falsyStr (cd.get f)) with
      | some field => .error (missingCustomerDetail field)
      | none =>
        match body.items with
        | .array (x :: xs) => .ok (cd, x :: xs, body.totalAmount.getD 0)
        | _ => .error emptyItems

/-- The test that marks a line item as a mock product:
`typeof productId === 'number' || !isNaN(Number(productId))`. -/
def isMockProduct : ProductId → Bool
  | .num _ => true
  | .str s => !stringIsNaN s

/-- The key passed to the product collection for a line item. -/
def productKey : ProductId → String
  | .num _ => ""
  | .str s => s

/-- Availability loop (lines 40 to 62): the response of the first failing item, if any. -/
def checkAvailability (products : ProductStore) : List Item → Option Response
  | [] => none
  | item :: rest =>
    if isMockProduct item.productId then checkAvailability products rest
    else
      match products (productKey item.productId) with
      | none => some (productNotFound item)
      | some product =>
        if product.stock < item.quantity then some (insufficientStock item product)
        else checkAvailability products rest

/-- Stock update loop (lines 77 to 88). -/
def updateStock (products : ProductStore) : List Item → ProductStore
  | [] => products
  | item :: rest =>
    if isMockProduct item.productId then updateStock products rest
    else updateStock (incStock products (productKey item.productId) (-item.quantity)) rest

/-- Inputs of one creation request that do not come from the request itself: three
clock readings, the string `Math.random().toString(36)` of the draw, and the mail
transport. -/
structure CreateEnv where
  newDate : Nat
  idNow : Nat
  randomBase36 : String
  updatedNow : Nat
  transport : Transport

/-- The schema's cast of `items.productId` to a string. -/
def castProductId (cfg : Config) : ProductId → String
  | .num n => cfg.numberToString n
  | .str s => s

/-- A request item as the schema stores it. -/
def castItem (cfg : Config) (item : Item) : OrderItem :=
  { productId := castProductId cfg item.productId
    name := item.name
    price := item.price
    quantity := item.quantity
    color := item.color
    size := item.size
    image := item.image }

/-- Construction `new Order(...)` of the create route, with the schema defaults and
casts. No `orderId` is given. -/
def newOrder (cfg : Config) (userId : String) (cd : CustomerInput) (items : List Item)
    (totalAmount : ℚ) (orderDate : Nat) : Order :=
  { orderId := ""
    customerDetails :=
      { userId := userId
        name := cd.name.getD ""
        email := cd.email.getD ""
        phone := cd.phone.getD ""
        address := cd.address.getD ""
        city := cd.city.getD ""
        state := cd.state.getD ""
        zipCode := cd.zipCode.getD ""
        country := cd.country.getD "India" }
    items := items.map (castItem cfg)
    totalAmount := totalAmount
    paymentStatus := some "pending"
    paymentMethod := "razorpay"
    paymentDetails := ⟨none, none, none⟩
    orderStatus := "pending"
    shippingMethod := "standard"
    shippingCost := 0
    taxAmount := 0
    trackingNumber := none
    notes := none
    orderDate := orderDate
    updatedAt := orderDate }

/-- Expression `orderDate || new Date()`. -/
def orderDateOr (orderDate : Option Nat) (newDate : Nat) : Nat :=
  match orderDate with
  | none => newDate
  | some d => if d = 0 then newDate else d

/-- Route `POST /create`. The document built at lines 65 to 73 is handed to `save()`,
which validates it first; when validation rejects it the `catch` of line 121 answers
500 and the stock loop and the mails are not reached. -/
def createOrder (cfg : Config) (env : CreateEnv) (st : Store) (userId : String)
    (body : CreateBody) : Store × Response :=
  match validateCreate body with
  | .error r => (st, r)
  | .ok (cd, items, totalAmount) =>
    match checkAvailability st.products items with
    | some r => (st, r)
    | none =>
      let document :=
        newOrder cfg userId cd items totalAmount (orderDateOr body.orderDate env.newDate)
      if validateBeforeSave document then
        let order := preSave true false env.idNow env.randomBase36 env.updatedNow document
        let products := updateStock st.products items
        let details : OrderDetails :=
          ⟨order.orderId, order.customerDetails, order.items, order.totalAmount,
            order.orderDate⟩
        let _notification := sendOrderNotification cfg env.transport details
        let _confirmation := sendCustomerConfirmation cfg env.transport details
        (⟨st.orders ++ [order], products⟩,
          ⟨201, true, "Order created successfully", Payload.created order.orderId order⟩)
      else (st, createFailed)

/-- The fields the payment-status route reads from the request body. -/
structure UpdatePaymentBody where
  paymentStatus : Option String
  paymentDetails : Option PaymentDetails
  deriving DecidableEq

/-- Route `PUT /:orderId/payment`. `save()` validates the assigned `paymentStatus`
against the schema's enum and the `catch` of line 234 answers 500 when it is rejected;
the response carries the document as assigned, the collection the order as it reads
back. -/
def updatePaymentStatus (updatedNow : Nat) (st : Store) (userId : String) (orderId : String)
    (body : UpdatePaymentBody) : Store × Response :=
  match findOrder st.orders orderId with
  | none => (st, orderNotFound)
  | some order =>
    if order.customerDetails.userId ≠ userId then (st, accessDenied)
    else
      let o1 := { order with paymentStatus := body.paymentStatus }
      let o2 := match body.paymentDetails with
        | some pd => { o1 with paymentDetails := pd }
        | none => o1
      let o3 := if body.paymentStatus = some "paid" then { o2 with orderStatus := "confirmed" } else o2
      if paymentStatusValid o3.paymentStatus then
        let saved := preSave false false 0 "" updatedNow o3
        (⟨replaceOrder orderId (readBack saved) st.orders, st.products⟩,
          ⟨200, true, "Payment status updated successfully", Payload.order saved⟩)
      else (st, updateFailed)

/-! ## Payment routes (`server/routes/payments.js`) -/

/-- The fields the gateway-order route reads from the request body. -/
structure CreatePaymentBody where
  amount : Option ℚ
  currency : Option String
  orderId : Option String
  deriving DecidableEq

/-- Route `POST /create-order`: no order is modified, so only the response is returned. -/
def createPaymentOrder (cfg : Config) (gateway : Gateway) (st : Store) (userId : String)
    (body : CreatePaymentBody) : Response :=
  if falsyNum body.amount || falsyStr body.orderId then amountAndOrderIdRequired
  else
    let orderId := body.orderId.getD ""
    match findOrder st.orders orderId with
    | none => orderNotFound
    | some order =>
      if order.customerDetails.userId ≠ userId then accessDenied
      else
        match gateway ⟨mathRound (body.amount.getD 0), body.currency.getD "INR", orderId,
            orderId, userId⟩ with
        | .ok razorpayOrder =>
          ⟨200, true, "", Payload.gatewayOrder razorpayOrder.id razorpayOrder.amount
            razorpayOrder.currency (keyId cfg)⟩
        | .error e => ⟨500, false, "Failed to create payment order", Payload.error e⟩

/-- The fields the verify route reads from the request body. -/
structure VerifyBody where
  razorpay_order_id : Option String
  razorpay_payment_id : Option String
  razorpay_signature : Option String
  orderId : Option String
  deriving DecidableEq

/-- The signature the verify route expects for a gateway order id and payment id. -/
def expectedSignature (cfg : Config) (razorpay_order_id razorpay_payment_id : String) : String :=
  cfg.hmacSha256Hex (keySecret cfg) (razorpay_order_id ++ "|" ++ razorpay_payment_id)

/-- Route `POST /verify`. -/
def verifyPayment (cfg : Config) (updatedNow : Nat) (st : Store) (userId : String)
    (body : VerifyBody) : Store × Response :=
  if falsyStr body.razorpay_order_id || falsyStr body.razorpay_payment_id ||
      falsyStr body.razorpay_signature || falsyStr body.orderId then
    (st, paymentDetailsRequired)
  else
    let razorpay_order_id := body.razorpay_order_id.getD ""
    let razorpay_payment_id := body.razorpay_payment_id.getD ""
    let razorpay_signature := body.razorpay_signature.getD ""
    let orderId := body.orderId.getD ""
    if expectedSignature cfg razorpay_order_id razorpay_payment_id ≠ razorpay_signature then
      (st, invalidSignature)
    else
      match findOrder st.orders orderId with
      | none => (st, orderNotFound)
      | some order =>
        if order.customerDetails.userId ≠ userId then (st, accessDenied)
        else
          let o1 := { order with
            paymentStatus := some "paid"
            paymentDetails :=
              ⟨some razorpay_order_id, some razorpay_payment_id, some razorpay_signature⟩
            orderStatus := "confirmed" }
          let saved := preSave false false 0 "" updatedNow o1
          (⟨replaceOrder orderId saved st.orders, st.products⟩,
            ⟨200, true, "Payment verified successfully",
              Payload.verified saved.orderId razorpay_payment_id⟩)

/-- Route `GET /status/:orderId`. -/
def getPaymentStatus (st : Store) (userId : String) (orderId : String) : Response :=
  match findOrder st.orders orderId with
  | none => orderNotFound
  | some order =>
    if order.customerDetails.userId ≠ userId then accessDenied
    else ⟨200, true, "", Payload.paymentStatus order.paymentStatus order.paymentDetails
      order.orderStatus⟩

/-! ## Sample data used by the concrete evaluations -/

/-- A configuration with a stand-in digest function and a stand-in number conversion
that prints an integer in decimal. -/
def sampleConfig : Config :=
  { hmacSha256Hex := fun key message => key ++ "/" ++ message
    numberToString := fun q => toString q.num
    RAZORPAY_KEY_SECRET := some "s3cret"
    RAZORPAY_KEY_ID := none
    EMAIL_USER := none
    OWNER_EMAIL := none }

def sampleCustomer : CustomerInput :=
  ⟨none, some "Asha", some "asha@example.com", some "5550100", some "1 Lake Road",
    some "Pune", some "MH", some "411001", none⟩

/-- A stored order owned by `alice`, pending and without payment details. -/
def sampleOrder : Order :=
  { orderId := "DAISY123456ABCDE"
    customerDetails :=
      { userId := "alice"
        name := "Asha"
        email := "asha@example.com"
        phone := "5550100"
        address := "1 Lake Road"
        city := "Pune"
        state := "MH"
        zipCode := "411001"
        country := "India" }
    items := [⟨"42", "Daisy", 10, 1, none, none, none⟩]
    totalAmount := 10
    paymentStatus := some "pending"
    paymentMethod := "razorpay"
    paymentDetails := ⟨none, none, none⟩
    orderStatus := "pending"
    shippingMethod := "standard"
    shippingCost := 0
    taxAmount := 10 * (18 / 100)
    trackingNumber := none
    notes := none
    orderDate := 1700000000000
    updatedAt := 1700000000000 }

def sampleStore : Store := ⟨[sampleOrder], fun _ => none⟩

/-- The response of the verify route to a caller who does not own the order. -/
def verifyNonOwnerResponse (cfg : Config) (body : VerifyBody) : Response :=
  if falsyStr body.razorpay_order_id || falsyStr body.razorpay_payment_id ||
      falsyStr body.razorpay_signature || falsyStr body.orderId then paymentDetailsRequired
  else if expectedSignature cfg (body.razorpay_order_id.getD "") (body.razorpay_payment_id.getD "")
      ≠ body.razorpay_signature.getD "" then invalidSignature
  else accessDenied

/-- Clock readings, the text `0.i` of the draw 0.5, and a transport that always raises. -/
def sampleEnv : CreateEnv :=
  ⟨1700000123456, 1700000123456, "0.i", 1700000123457, fun _ => .error "connection refused"⟩

/-- A line item for `quantity` units of the product with the given identifier. -/
def line (productId : ProductId) (quantity : Int) : Item :=
  ⟨productId, "Daisy", 10, quantity, none, none, none⟩

/-- A product collection holding the structured key `abc123` with 5 units in stock. -/
def stockedStore : Store := ⟨[], fun k => if k = "abc123" then some ⟨5⟩ else none⟩

/-- One request with two lines of 3 units each for the product `abc123`. -/
def twoLineBody : CreateBody :=
  ⟨some sampleCustomer, .array [line (.str "abc123") 3, line (.str "abc123") 3], some 60, none⟩

/-- A request whose third line asks for more than the stock of `abc123`. -/
def overdrawnBody : CreateBody :=
  ⟨some sampleCustomer,
    .array [line (.num 42) 100, line (.str "abc123") 2, line (.str "abc123") 9,
      line (.str "missing-key") 1],
    some 60, none⟩

/-- The request of the specification's scenario: 100 units of the mock product 42. -/
def mockBody : CreateBody :=
  ⟨some sampleCustomer, .array [line (.num 42) 100], some 1000, none⟩

/-- A structured-key line item that the availability loop rejects: its product is absent
or has fewer units than requested. -/
def isOffending (products : ProductStore) (item : Item) : Bool :=
  !isMockProduct item.productId &&
    match products (productKey item.productId) with
    | none => true
    | some product => decide (product.stock < item.quantity)

/-- The error for an offending item: 404 when the product is absent, 400 with the
available stock otherwise. -/
def rejectionFor (products : ProductStore) (item : Item) : Response :=
  match products (productKey item.productId) with
  | none => productNotFound item
  | some product => insufficientStock item product

/-- A customer field that is missing or empty. -/
def missingOrEmpty : Option String → Bool
  | none => true
  | some s => decide (s = "")

/-- The rejection condition of the create route in the words of the specification:
`customerDetails` is missing, or `items` is missing, not a list or empty, or
`totalAmount` is missing or zero, or a required customer field is missing or empty. -/
def shapeRejected (body : CreateBody) : Bool :=
  body.customerDetails.isNone ||
  (match body.items with
    | .array xs => xs.isEmpty
    | _ => true) ||
  (match body.totalAmount with
    | none => true
    | some q => decide (q = 0)) ||
  (match body.customerDetails with
    | none => false
    | some cd => requiredCustomerFields.any (fun f => missingOrEmpty (cd.get f)))

/-- A request that is complete except that its total is negative. -/
def negativeTotalBody : CreateBody :=
  ⟨some sampleCustomer, .array [line (.num 42) 1], some (-250), none⟩

/-- One order-mutating request, with the inputs it draws from outside the request. -/
inductive Op where
  | create (env : CreateEnv) (userId : String) (body : CreateBody)
  | verify (now : Nat) (userId : String) (body : VerifyBody)
  | updatePayment (now : Nat) (userId : String) (orderId : String) (body : UpdatePaymentBody)

/-- The store after one request. -/
def step (cfg : Config) (st : Store) : Op → Store
  | .create env userId body => (createOrder cfg env st userId body).1
  | .verify now userId body => (verifyPayment cfg now st userId body).1
  | .updatePayment now userId orderId body =>
    (updatePaymentStatus now st userId orderId body).1

/-- The store after a sequence of requests handled one after another. -/
def run (cfg : Config) (st : Store) (ops : List Op) : Store := ops.foldl (step cfg) st

/-- The order statuses from `confirmed` onwards. -/
def confirmedOrLater : List String := ["confirmed", "processing", "shipped", "delivered"]

/-- Every paid order is confirmed or further along. -/
def PaidImpliesConfirmed (st : Store) : Prop :=
  ∀ o ∈ st.orders, o.paymentStatus = some "paid" → o.orderStatus ∈ confirmedOrLater

/-- Every stored tax amount is 18% of the stored total. -/
def TaxIsEighteenPercent (st : Store) : Prop :=
  ∀ o ∈ st.orders, o.taxAmount = o.totalAmount * (18 / 100)

/-- What the verify route writes over a loaded order. -/
def markPaid (now : Nat) (O P sig : String) (order : Order) : Order :=
  { order with
    paymentStatus := some "paid"
    paymentDetails := ⟨some O, some P, some sig⟩
    orderStatus := "confirmed"
    updatedAt := now }

/-- What the payment-status route assigns to a loaded order and hands to `save()`. -/
def applyPaymentUpdate (now : Nat) (body : UpdatePaymentBody) (order : Order) : Order :=
  { order with
    paymentStatus := body.paymentStatus
    paymentDetails := body.paymentDetails.getD order.paymentDetails
    orderStatus := if body.paymentStatus = some "paid" then "confirmed" else order.orderStatus
    updatedAt := now }

/-- A verify request for the sample order whose signature is the digest of
`order_1|pay_1` under the sample configuration. -/
def signedBody : VerifyBody :=
  ⟨some "order_1", some "pay_1", some "s3cret/order_1|pay_1", some "DAISY123456ABCDE"⟩

/-- On the sample store: `alice` verifies her stored order, then sets its status to
`failed`. -/
def sampleOps : List Op :=
  [.verify 1700000200000 "alice" signedBody,
    .updatePayment 1700000300000 "alice" "DAISY123456ABCDE" ⟨some "failed", none⟩]

/-- A verify request that passes every check of the route on this store: the four
fields are non-empty, the signature is the expected one, the order exists and the
caller owns it. -/
def verifySucceeds (cfg : Config) (st : Store) (userId : String) (body : VerifyBody) : Bool :=
  !(falsyStr body.razorpay_order_id || falsyStr body.razorpay_payment_id ||
      falsyStr body.razorpay_signature || falsyStr body.orderId) &&
  decide (expectedSignature cfg (body.razorpay_order_id.getD "")
    (body.razorpay_payment_id.getD "") = body.razorpay_signature.getD "") &&
  match findOrder st.orders (body.orderId.getD "") with
  | some order => decide (order.customerDetails.userId = userId)
  | none => false

/-- The caller owns the order stored under `orderId`. -/
def ownsOrder (st : Store) (userId orderId : String) : Bool :=
  match findOrder st.orders orderId with
  | some order => decide (order.customerDetails.userId = userId)
  | none => false

/-- A request that writes the `paymentDetails` of the order `orderId` on this store: a
successful verification of that order, or a payment-status update of it by its owner
that carries `paymentDetails` and a status the schema admits. -/
def writesPaymentDetails (cfg : Config) (st : Store) (orderId : String) : Op → Bool
  | .create _ _ _ => false
  | .verify _ userId body =>
    decide (body.orderId = some orderId) && verifySucceeds cfg st userId body
  | .updatePayment _ userId target body =>
    decide (target = orderId) && body.paymentDetails.isSome &&
      paymentStatusValid body.paymentStatus && ownsOrder st userId target

/-- Whether a request is a payment verification. -/
def Op.isVerify : Op → Bool
  | .verify _ _ _ => true
  | _ => false

/-- On the sample store: `alice` sends a payment-status update for her stored order
that carries payment details; no verification request is made. -/
def unverifiedOps : List Op :=
  [.updatePayment 1700000200000 "alice" "DAISY123456ABCDE"
    ⟨some "paid", some ⟨some "order_x", some "pay_x", some "not-a-signature"⟩⟩]

/-- The order in the sample store after all of `sampleOps`. -/
def sampleFinalOrder : Order :=
  readBack (applyPaymentUpdate 1700000300000 ⟨some "failed", none⟩
    (markPaid 1700000200000 "order_1" "pay_1" "s3cret/order_1|pay_1" sampleOrder))

/-- A creation request for 2 units of the stocked product `abc123`. -/
def inStockBody : CreateBody :=
  ⟨some sampleCustomer, .array [line (.str "abc123") 2], some 20, none⟩

/-- A request sent by `alice` whose `customerDetails` names `mallory` as the user. -/
def spoofedBody : CreateBody :=
  ⟨some { sampleCustomer with userId := some "mallory" }, .array [line (.num 42) 1], some 10,
    none⟩

/-- The document the create route builds for `spoofedBody` sent by `alice`. -/
def spoofedDocument : Order :=
  newOrder sampleConfig "alice" { sampleCustomer with userId := some "mallory" }
    [line (.num 42) 1] 10 (orderDateOr none sampleEnv.newDate)

/-- One `POST /create` request with the inputs it draws from outside the request. -/
structure CreateRequest where
  env : CreateEnv
  userId : String
  body : CreateBody

/-- Creation requests handled one after another: the final store and the responses in
the order of the requests. -/
def createAll (cfg : Config) (st : Store) : List CreateRequest → Store × List Response
  | [] => (st, [])
  | r :: rest =>
    ((createAll cfg (createOrder cfg r.env st r.userId r.body).1 rest).1,
      (createOrder cfg r.env st r.userId r.body).2 ::
        (createAll cfg (createOrder cfg r.env st r.userId r.body).1 rest).2)

/-- Units of the product `key` that the lines of an item list ask for, over all lines
that name it. -/
def unitsOf (key : String) (items : List Item) : Int :=
  ((items.filter (fun item => item.productId == ProductId.str key)).map
    (fun item => item.quantity)).sum

/-- Units of the product `key` that a request body asks for. -/
def requestedUnits (key : String) (body : CreateBody) : Int :=
  match body.items with
  | .array xs => unitsOf key xs
  | _ => 0

/-- Units of the product `key` over all lines of the requests that succeeded (201). -/
def unitsSold (key : String) : List CreateRequest → List Response → Int
  | r :: rs, response :: responses =>
    (if response.status = 201 then requestedUnits key r.body else 0) +
      unitsSold key rs responses
  | _, _ => 0

/-- Two creation requests for `abc123`: two lines of 3 units, then one line of 2. -/
def sampleRequests : List CreateRequest :=
  [⟨sampleEnv, "alice", twoLineBody⟩, ⟨sampleEnv, "bob", inStockBody⟩]

/-! # Properties -/

/-! ## Signature check of the verify route -/

theorem falsyStr_some (s : String) : falsyStr (some s) = true ↔ s = "" := by
  simp [falsyStr]

theorem verifyPayment_of_present (cfg : Config) (now : Nat) (st : Store) (userId : String)
    (O P sig orderId : String) (hO : O ≠ "") (hP : P ≠ "") (hsig : sig ≠ "")
    (hid : orderId ≠ "") :
    verifyPayment cfg now st userId ⟨some O, some P, some sig, some orderId⟩ =
      if expectedSignature cfg O P ≠ sig then (st, invalidSignature)
      else
        match findOrder st.orders orderId with
        | none => (st, orderNotFound)
        | some order =>
          if order.customerDetails.userId ≠ userId then (st, accessDenied)
          else
            (⟨replaceOrder orderId (preSave false false 0 "" now { order with
                paymentStatus := some "paid"
                paymentDetails := ⟨some O, some P, some sig⟩
                orderStatus := "confirmed" }) st.orders, st.products⟩,
              ⟨200, true, "Payment verified successfully",
                Payload.verified (preSave false false 0 "" now { order with
                  paymentStatus := some "paid"
                  paymentDetails := ⟨some O, some P, some sig⟩
                  orderStatus := "confirmed" }).orderId P⟩) := by
  simp [verifyPayment, falsyStr, hO, hP, hsig, hid]

/-- C1: for a verify request whose gateway order id `O`, payment id `P`, signature and
order id are all present and non-empty, the response is the signature-mismatch error
(400, 'Invalid payment signature') exactly when the supplied signature differs from
the hex HMAC-SHA256 of `O|P` under the key the route uses (`keySecret`: the configured
secret, for any HMAC function); and in that case the store is returned unchanged,
whatever it contains and whoever calls. -/
theorem verifyPayment_invalidSignature_iff (cfg : Config) (now : Nat) (st : Store)
    (userId : String) (O P sig orderId : String) (hO : O ≠ "") (hP : P ≠ "")
    (hsig : sig ≠ "") (hid : orderId ≠ "") :
    ((verifyPayment cfg now st userId ⟨some O, some P, some sig, some orderId⟩).2 =
        invalidSignature ↔
      sig ≠ cfg.hmacSha256Hex (keySecret cfg) (O ++ "|" ++ P)) ∧
    ((verifyPayment cfg now st userId ⟨some O, some P, some sig, some orderId⟩).2 =
        invalidSignature →
      (verifyPayment cfg now st userId ⟨some O, some P, some sig, some orderId⟩).1 = st) := by
  rw [verifyPayment_of_present cfg now st userId O P sig orderId hO hP hsig hid]
  by_cases h : expectedSignature cfg O P = sig
  · have hs : ¬ sig ≠ cfg.hmacSha256Hex (keySecret cfg) (O ++ "|" ++ P) := by
      simpa [expectedSignature] using h.symm
    cases hf : findOrder st.orders orderId with
    | none => simp [h, hs, orderNotFound, invalidSignature, failure]
    | some order =>
      by_cases ho : order.customerDetails.userId = userId
      · simp [h, hs, ho, invalidSignature, failure]
      · simp [h, hs, ho, accessDenied, invalidSignature, failure]
  · have hs : sig ≠ cfg.hmacSha256Hex (keySecret cfg) (O ++ "|" ++ P) := by
      intro e
      exact h (by simpa [expectedSignature] using e.symm)
    simp [h, hs]

/-- C1 at a concrete request: a forged signature on the sample store. -/
theorem verifyPayment_invalidSignature_iff_witness :
    ((verifyPayment sampleConfig 7 sampleStore "mallory"
          ⟨some "order_1", some "pay_1", some "forged", some "DAISY123456ABCDE"⟩).2 =
        invalidSignature ↔
      "forged" ≠ sampleConfig.hmacSha256Hex (keySecret sampleConfig) ("order_1" ++ "|" ++ "pay_1")) ∧
    ((verifyPayment sampleConfig 7 sampleStore "mallory"
          ⟨some "order_1", some "pay_1", some "forged", some "DAISY123456ABCDE"⟩).2 =
        invalidSignature →
      (verifyPayment sampleConfig 7 sampleStore "mallory"
          ⟨some "order_1", some "pay_1", some "forged", some "DAISY123456ABCDE"⟩).1 =
        sampleStore) :=
  verifyPayment_invalidSignature_iff sampleConfig 7 sampleStore "mallory" "order_1" "pay_1"
    "forged" "DAISY123456ABCDE" (by decide) (by decide) (by decide) (by decide)

/-! ## Ownership checks -/

/-- C2 fails as stated: on the sample store, whose order belongs to `alice`, the caller
`mallory` sending a verify request with a forged signature for that order receives
400 'Invalid payment signature', and sending a gateway-order request without an
amount receives 400 'Amount and order ID are required'; neither response is the 403. -/
theorem nonOwner_not_always_forbidden :
    findOrder sampleStore.orders "DAISY123456ABCDE" = some sampleOrder ∧
    sampleOrder.customerDetails.userId ≠ "mallory" ∧
    (verifyPayment sampleConfig 7 sampleStore "mallory"
        ⟨some "order_1", some "pay_1", some "forged", some "DAISY123456ABCDE"⟩).2 =
      invalidSignature ∧
    createPaymentOrder sampleConfig (fun _ => .error "unreachable") sampleStore "mallory"
        ⟨none, none, some "DAISY123456ABCDE"⟩ = amountAndOrderIdRequired ∧
    invalidSignature.status = 400 ∧ amountAndOrderIdRequired.status = 400 ∧
    invalidSignature ≠ accessDenied ∧ amountAndOrderIdRequired ≠ accessDenied :=
  ⟨rfl, by decide, by decide, by decide, by decide, by decide, by decide, by decide⟩

/-- C2, amended: for a stored order and a caller who is not its owner,
`updatePaymentStatus` and `getPaymentStatus` answer 403 'Access denied' for every
request body; the gateway-order route answers 403 when `amount` is present and
non-zero and `orderId` non-empty, and the 400 validation error otherwise; the verify
route answers 403 when its four fields are non-empty and the signature is valid, and
one of its two 400 errors otherwise. In every case the store is unchanged, the gateway
is not consulted, and the response is a fixed error record that holds nothing of the
order. (`getOrder` tests the populated user document instead of the stored owner
reference and is left out.) -/
theorem nonOwner_gets_fixed_error (cfg : Config) (gateway : Gateway) (now : Nat) (st : Store)
    (order : Order) (userId orderId : String)
    (hfind : findOrder st.orders orderId = some order)
    (hne : order.customerDetails.userId ≠ userId) :
    (∀ body : UpdatePaymentBody,
      updatePaymentStatus now st userId orderId body = (st, accessDenied)) ∧
    getPaymentStatus st userId orderId = accessDenied ∧
    (∀ body : CreatePaymentBody, body.orderId = some orderId →
      createPaymentOrder cfg gateway st userId body =
        if falsyNum body.amount || falsyStr body.orderId then amountAndOrderIdRequired
        else accessDenied) ∧
    (∀ body : VerifyBody, body.orderId = some orderId →
      verifyPayment cfg now st userId body = (st, verifyNonOwnerResponse cfg body)) := by
  refine ⟨?_, ?_, ?_, ?_⟩
  · intro body
    simp [updatePaymentStatus, hfind, hne]
  · simp [getPaymentStatus, hfind, hne]
  · intro body hb
    unfold createPaymentOrder
    split
    · rfl
    · simp [hb, hfind, hne]
  · intro body hb
    unfold verifyPayment verifyNonOwnerResponse
    by_cases h1 : (falsyStr body.razorpay_order_id || falsyStr body.razorpay_payment_id ||
        falsyStr body.razorpay_signature || falsyStr body.orderId) = true
    · simp only [h1, if_true]
    · by_cases h2 : expectedSignature cfg (body.razorpay_order_id.getD "")
          (body.razorpay_payment_id.getD "") = body.razorpay_signature.getD ""
      · rw [if_neg h1, if_neg h1]
        simp [h2, hb, hfind, hne]
      · rw [if_neg h1, if_neg h1]
        simp [h2]

/-- C2 amended, at the sample store with the caller `mallory`. -/
theorem nonOwner_gets_fixed_error_witness :
    (∀ body : UpdatePaymentBody,
      updatePaymentStatus 7 sampleStore "mallory" "DAISY123456ABCDE" body =
        (sampleStore, accessDenied)) ∧
    getPaymentStatus sampleStore "mallory" "DAISY123456ABCDE" = accessDenied ∧
    (∀ body : CreatePaymentBody, body.orderId = some "DAISY123456ABCDE" →
      createPaymentOrder sampleConfig (fun _ => .error "down") sampleStore "mallory" body =
        if falsyNum body.amount || falsyStr body.orderId then amountAndOrderIdRequired
        else accessDenied) ∧
    (∀ body : VerifyBody, body.orderId = some "DAISY123456ABCDE" →
      verifyPayment sampleConfig 7 sampleStore "mallory" body =
        (sampleStore, verifyNonOwnerResponse sampleConfig body)) :=
  nonOwner_gets_fixed_error sampleConfig (fun _ => .error "down") 7 sampleStore sampleOrder
    "mallory" "DAISY123456ABCDE" rfl (by decide)

/-! ## Stock validation and reservation -/

theorem checkAvailability_eq_find (products : ProductStore) (items : List Item) :
    checkAvailability products items =
      (items.find? (isOffending products)).map (rejectionFor products) := by
  induction items with
  | nil => rfl
  | cons item rest ih =>
    unfold checkAvailability
    by_cases hm : isMockProduct item.productId = true
    · simp [hm, ih, List.find?, isOffending]
    · cases hp : products (productKey item.productId) with
      | none => simp [hm, hp, List.find?, isOffending, rejectionFor]
      | some product =>
        by_cases hlt : product.stock < item.quantity
        · simp [hm, hp, hlt, List.find?, isOffending, rejectionFor]
        · simp [hm, hp, hlt, ih, List.find?, isOffending]

theorem updateStock_of_all_mock (products : ProductStore) (items : List Item)
    (hmock : ∀ item ∈ items, isMockProduct item.productId = true) :
    updateStock products items = products := by
  induction items with
  | nil => rfl
  | cons item rest ih =>
    have h1 : isMockProduct item.productId = true := hmock item (List.mem_cons_self _ _)
    have h2 : ∀ x ∈ rest, isMockProduct x.productId = true :=
      fun x hx => hmock x (List.mem_cons_of_mem _ hx)
    simp [updateStock, h1, ih h2]

/-- C4: when a creation request passes input validation and its item list holds, at any
position, a structured-key item whose product is absent or has less stock than
requested, the request is answered with the error of the first such item (404 'Product
not found' when its product is absent, 400 'Insufficient stock' otherwise) and the
store is returned unchanged: no stock is changed and no order is persisted. -/
theorem createOrder_rejects_first_offending (cfg : Config) (env : CreateEnv) (st : Store)
    (userId : String) (body : CreateBody) (cd : CustomerInput) (items : List Item) (total : ℚ)
    (hvalid : validateCreate body = .ok (cd, items, total))
    (hex : ∃ item ∈ items, isOffending st.products item = true) :
    ∃ pre item post, items = pre ++ item :: post ∧
      (∀ x ∈ pre, isOffending st.products x = false) ∧
      isOffending st.products item = true ∧
      createOrder cfg env st userId body = (st, rejectionFor st.products item) ∧
      (st.products (productKey item.productId) = none →
        rejectionFor st.products item = productNotFound item ∧
          (productNotFound item).status = 404) ∧
      (∀ product, st.products (productKey item.productId) = some product →
        rejectionFor st.products item = insufficientStock item product ∧
          (insufficientStock item product).status = 400) := by
  obtain ⟨w, hw, hoff⟩ := hex
  cases hf : items.find? (isOffending st.products) with
  | none =>
    have := List.find?_eq_none.mp hf w hw
    simp [hoff] at this
  | some item =>
    obtain ⟨hP, pre, post, hsplit, hpre⟩ := List.find?_eq_some.mp hf
    refine ⟨pre, item, post, hsplit, ?_, hP, ?_, ?_, ?_⟩
    · intro x hx
      simpa using hpre x hx
    · simp [createOrder, hvalid, checkAvailability_eq_find, hf]
    · intro hnone
      simp [rejectionFor, hnone, productNotFound, failure]
    · intro product hsome
      simp [rejectionFor, hsome, insufficientStock, failure]

/-- C4 at a concrete request: the third of four lines overdraws `abc123`. -/
theorem createOrder_rejects_first_offending_witness :
    ∃ pre item post,
      [line (.num 42) 100, line (.str "abc123") 2, line (.str "abc123") 9,
        line (.str "missing-key") 1] = pre ++ item :: post ∧
      (∀ x ∈ pre, isOffending stockedStore.products x = false) ∧
      isOffending stockedStore.products item = true ∧
      createOrder sampleConfig sampleEnv stockedStore "alice" overdrawnBody =
        (stockedStore, rejectionFor stockedStore.products item) ∧
      (stockedStore.products (productKey item.productId) = none →
        rejectionFor stockedStore.products item = productNotFound item ∧
          (productNotFound item).status = 404) ∧
      (∀ product, stockedStore.products (productKey item.productId) = some product →
        rejectionFor stockedStore.products item = insufficientStock item product ∧
          (insufficientStock item product).status = 400) :=
  createOrder_rejects_first_offending sampleConfig sampleEnv stockedStore "alice" overdrawnBody
    sampleCustomer _ 60 rfl ⟨line (.str "abc123") 9, by simp, by decide⟩

theorem checkAvailability_of_all_mock (products : ProductStore) (items : List Item)
    (hmock : ∀ item ∈ items, isMockProduct item.productId = true) :
    checkAvailability products items = none := by
  induction items with
  | nil => rfl
  | cons item rest ih =>
    have h1 : isMockProduct item.productId = true := hmock item (List.mem_cons_self _ _)
    have h2 : ∀ x ∈ rest, isMockProduct x.productId = true :=
      fun x hx => hmock x (List.mem_cons_of_mem _ hx)
    simp [checkAvailability, h1, ih h2]

/-! ## Input validation of the create route -/

theorem falsyStr_eq_missingOrEmpty (v : Option String) : falsyStr v = missingOrEmpty v := by
  cases v with
  | none => rfl
  | some s => by_cases h : s = "" <;> simp [falsyStr, missingOrEmpty, h]

theorem validateCreate_status (body : CreateBody) (r : Response)
    (h : validateCreate body = .error r) : r.status = 400 ∧ r.success = false := by
  unfold validateCreate at h
  split at h
  · cases h; exact ⟨rfl, rfl⟩
  · split at h
    · cases h; exact ⟨rfl, rfl⟩
    · split at h
      · cases h; exact ⟨rfl, rfl⟩
      · split at h
        · cases h
        · cases h; exact ⟨rfl, rfl⟩

theorem validateCreate_isError_iff (body : CreateBody) :
    (∃ r, validateCreate body = .error r) ↔ shapeRejected body = true := by
  obtain ⟨cdo, items, total, od⟩ := body
  cases cdo with
  | none => simp [validateCreate, shapeRejected]
  | some cd =>
    have hfields : (requiredCustomerFields.find? (fun f => falsyStr (cd.get f))).isSome =
        requiredCustomerFields.any (fun f => missingOrEmpty (cd.get f)) := by
      rw [Bool.eq_iff_iff]
      simp [List.find?_isSome, List.any_eq_true, falsyStr_eq_missingOrEmpty]
    cases hf : requiredCustomerFields.find? (fun f => falsyStr (cd.get f)) with
    | some field =>
      rw [hf] at hfields
      have hany : requiredCustomerFields.any (fun f => missingOrEmpty (cd.get f)) = true := by
        simpa using hfields.symm
      constructor
      · intro _
        simp [shapeRejected, hany]
      · intro _
        unfold validateCreate
        simp only [hf]
        split <;> exact ⟨_, rfl⟩
    | none =>
      rw [hf] at hfields
      have hany : requiredCustomerFields.any (fun f => missingOrEmpty (cd.get f)) = false := by
        simpa using hfields.symm
      cases items with
      | absent => simp [validateCreate, shapeRejected, ItemsField.falsy]
      | nonArray t =>
        constructor
        · intro _
          simp [shapeRejected]
        · intro _
          unfold validateCreate
          simp only [hf]
          split <;> exact ⟨_, rfl⟩
      | array xs =>
        cases xs with
        | nil =>
          cases total with
          | none => simp [validateCreate, shapeRejected, ItemsField.falsy, falsyNum]
          | some q =>
            constructor
            · intro _
              simp [shapeRejected]
            · intro _
              unfold validateCreate
              simp only [hf]
              split <;> exact ⟨_, rfl⟩
        | cons x xs =>
          cases total with
          | none => simp [validateCreate, shapeRejected, ItemsField.falsy, falsyNum]
          | some q =>
            by_cases hq : q = 0
            · simp [validateCreate, shapeRejected, ItemsField.falsy, falsyNum, hq]
            · simp [validateCreate, shapeRejected, ItemsField.falsy, falsyNum, hq, hf, hany]

/-- C8: the create route rejects a request body in its input validation exactly when
`customerDetails` is missing, or `items` is missing, not a list or empty, or
`totalAmount` is missing or zero, or one of the customer fields name, email, phone,
address, city, state, zipCode is missing or empty (`shapeRejected`); every such
rejection is a 400, and the route then returns the store untouched, whatever the
product collection holds; a body that is complete and carries a negative
`totalAmount` passes the validation. -/
theorem createOrder_validation_iff (body : CreateBody) :
    ((∃ r, validateCreate body = .error r) ↔ shapeRejected body = true) ∧
    (∀ r, validateCreate body = .error r →
      r.status = 400 ∧ r.success = false ∧
      ∀ (cfg : Config) (env : CreateEnv) (st : Store) (userId : String),
        createOrder cfg env st userId body = (st, r)) ∧
    (∀ (q : ℚ) (cd : CustomerInput) (item : Item) (rest : List Item),
      q < 0 → body.totalAmount = some q → body.customerDetails = some cd →
      body.items = .array (item :: rest) →
      (∀ f ∈ requiredCustomerFields, missingOrEmpty (cd.get f) = false) →
      validateCreate body = .ok (cd, item :: rest, q)) := by
  refine ⟨validateCreate_isError_iff body, ?_, ?_⟩
  · intro r hr
    refine ⟨(validateCreate_status body r hr).1, (validateCreate_status body r hr).2, ?_⟩
    intro cfg env st userId
    simp [createOrder, hr]
  · intro q cd item rest hq ht hc hi hfields
    have hne : q ≠ 0 := ne_of_lt hq
    have hf : requiredCustomerFields.find? (fun f => falsyStr (cd.get f)) = none := by
      rw [List.find?_eq_none]
      intro f hfm
      simpa [falsyStr_eq_missingOrEmpty] using hfields f hfm
    simp [validateCreate, hc, hi, ht, ItemsField.falsy, falsyNum, hne, hf]

/-- C8 at concrete bodies: a body without `customerDetails` is rejected and leaves the
sample store as it was; a complete body with total -250 is not rejected and passes the
validation. -/
theorem createOrder_validation_examples :
    createOrder sampleConfig sampleEnv stockedStore "alice"
        ⟨none, .array [line (.num 42) 1], some 10, none⟩ = (stockedStore, missingOrderDetails) ∧
    shapeRejected negativeTotalBody = false ∧
    validateCreate negativeTotalBody = .ok (sampleCustomer, [line (.num 42) 1], -250) :=
  ⟨((createOrder_validation_iff ⟨none, .array [line (.num 42) 1], some 10, none⟩).2.1
      missingOrderDetails rfl).2.2 sampleConfig sampleEnv stockedStore "alice",
    by decide,
    (createOrder_validation_iff negativeTotalBody).2.2 (-250) sampleCustomer (line (.num 42) 1) []
      (by norm_num) rfl rfl rfl (by decide)⟩

/-! ## The create route and `save()` -/

theorem validateBeforeSave_newOrder (cfg : Config) (userId : String) (cd : CustomerInput)
    (items : List Item) (total : ℚ) (orderDate : Nat) :
    validateBeforeSave (newOrder cfg userId cd items total orderDate) = false := by
  simp [validateBeforeSave, newOrder]

theorem createOrder_of_available (cfg : Config) (env : CreateEnv) (st : Store) (userId : String)
    (body : CreateBody) (cd : CustomerInput) (items : List Item) (total : ℚ)
    (hvalid : validateCreate body = .ok (cd, items, total))
    (havail : checkAvailability st.products items = none) :
    createOrder cfg env st userId body = (st, createFailed) := by
  simp [createOrder, hvalid, havail, validateBeforeSave_newOrder]

theorem checkAvailability_status (products : ProductStore) (items : List Item) (r : Response)
    (h : checkAvailability products items = some r) : r.status = 404 ∨ r.status = 400 := by
  rw [checkAvailability_eq_find] at h
  cases hf : items.find? (isOffending products) with
  | none => simp [hf] at h
  | some item =>
    simp only [hf, Option.map_some', Option.some.injEq] at h
    subst h
    unfold rejectionFor
    split
    · exact Or.inl rfl
    · exact Or.inr rfl

theorem createOrder_store (cfg : Config) (env : CreateEnv) (st : Store) (userId : String)
    (body : CreateBody) : (createOrder cfg env st userId body).1 = st := by
  cases hv : validateCreate body with
  | error r => simp [createOrder, hv]
  | ok triple =>
    obtain ⟨cd, items, total⟩ := triple
    cases ha : checkAvailability st.products items with
    | some r => simp [createOrder, hv, ha]
    | none => rw [createOrder_of_available cfg env st userId body cd items total hv ha]

theorem createOrder_status (cfg : Config) (env : CreateEnv) (st : Store) (userId : String)
    (body : CreateBody) : (createOrder cfg env st userId body).2.status ≠ 201 := by
  cases hv : validateCreate body with
  | error r =>
    have := (validateCreate_status body r hv).1
    simp only [createOrder, hv]
    omega
  | ok triple =>
    obtain ⟨cd, items, total⟩ := triple
    cases ha : checkAvailability st.products items with
    | some r =>
      have := checkAvailability_status _ _ r ha
      simp only [createOrder, hv, ha]
      omega
    | none =>
      rw [createOrder_of_available cfg env st userId body cd items total hv ha]
      simp [createFailed]

theorem createAll_store (cfg : Config) (st : Store) (reqs : List CreateRequest) :
    (createAll cfg st reqs).1 = st := by
  induction reqs generalizing st with
  | nil => rfl
  | cons r rest ih =>
    simp only [createAll]
    rw [createOrder_store, ih]

theorem unitsSold_createAll (cfg : Config) (st : Store) (key : String)
    (reqs : List CreateRequest) : unitsSold key reqs (createAll cfg st reqs).2 = 0 := by
  induction reqs generalizing st with
  | nil => rfl
  | cons r rest ih =>
    simp only [createAll, unitsSold]
    rw [if_neg (createOrder_status cfg r.env st r.userId r.body), createOrder_store, ih]
    simp

/-- C3: for a structured-key product with stock `N ≥ 0` and any sequence of creation
requests handled one after another, whatever their item lists, the units of that
product over all lines of the requests that succeed never exceed `N`; after every
prefix of the sequence the product has a stock `remaining ≥ 0` with `remaining` plus
the units sold so far equal to `N`; and on that store a request that passes input
validation and whose first offending line asks for `remaining + 1` units of the
product is answered 400 'Insufficient stock', the store unchanged. -/
theorem createOrder_never_oversells (cfg : Config) (st : Store) (key : String) (N : Int)
    (reqs : List CreateRequest)
    (hkey : isMockProduct (.str key) = false)
    (hstock : st.products key = some ⟨N⟩) (hN : 0 ≤ N) :
    unitsSold key reqs (createAll cfg st reqs).2 ≤ N ∧
    ∀ k : Nat, ∃ remaining : Int,
      (createAll cfg st (reqs.take k)).1.products key = some ⟨remaining⟩ ∧
      0 ≤ remaining ∧
      remaining + unitsSold key (reqs.take k) (createAll cfg st (reqs.take k)).2 = N ∧
      ∀ (env : CreateEnv) (userId : String) (body : CreateBody) (cd : CustomerInput)
        (pre : List Item) (item : Item) (post : List Item) (total : ℚ),
        validateCreate body = .ok (cd, pre ++ item :: post, total) →
        (∀ x ∈ pre, isOffending (createAll cfg st (reqs.take k)).1.products x = false) →
        item.productId = .str key → item.quantity = remaining + 1 →
        createOrder cfg env (createAll cfg st (reqs.take k)).1 userId body =
          ((createAll cfg st (reqs.take k)).1, insufficientStock item ⟨remaining⟩) ∧
        (insufficientStock item ⟨remaining⟩).status = 400 := by
  refine ⟨by rw [unitsSold_createAll]; exact hN, ?_⟩
  intro k
  refine ⟨N, by rw [createAll_store]; exact hstock, hN, by rw [unitsSold_createAll]; simp, ?_⟩
  intro env userId body cd pre item post total hvalid hpre hid hq
  rw [createAll_store] at hpre ⊢
  have hoff : isOffending st.products item = true := by
    simp [isOffending, hid, hkey, productKey, hstock, hq]
  have hfind : (pre ++ item :: post).find? (isOffending st.products) = some item := by
    rw [List.find?_eq_some]
    exact ⟨hoff, pre, post, rfl, fun a ha => by simp [hpre a ha]⟩
  refine ⟨?_, rfl⟩
  simp [createOrder, hvalid, checkAvailability_eq_find, hfind, rejectionFor, hid, productKey,
    hstock]

/-- C3 at a concrete run: 5 units of `abc123`, a request with two lines of 3 units and
a request with one line of 2. -/
theorem createOrder_never_oversells_witness :
    unitsSold "abc123" sampleRequests (createAll sampleConfig stockedStore sampleRequests).2 ≤ 5 ∧
    ∀ k : Nat, ∃ remaining : Int,
      (createAll sampleConfig stockedStore (sampleRequests.take k)).1.products "abc123" =
        some ⟨remaining⟩ ∧
      0 ≤ remaining ∧
      remaining + unitsSold "abc123" (sampleRequests.take k)
        (createAll sampleConfig stockedStore (sampleRequests.take k)).2 = 5 ∧
      ∀ (env : CreateEnv) (userId : String) (body : CreateBody) (cd : CustomerInput)
        (pre : List Item) (item : Item) (post : List Item) (total : ℚ),
        validateCreate body = .ok (cd, pre ++ item :: post, total) →
        (∀ x ∈ pre, isOffending
          (createAll sampleConfig stockedStore (sampleRequests.take k)).1.products x = false) →
        item.productId = .str "abc123" → item.quantity = remaining + 1 →
        createOrder sampleConfig env
            (createAll sampleConfig stockedStore (sampleRequests.take k)).1 userId body =
          ((createAll sampleConfig stockedStore (sampleRequests.take k)).1,
            insufficientStock item ⟨remaining⟩) ∧
        (insufficientStock item ⟨remaining⟩).status = 400 :=
  createOrder_never_oversells sampleConfig stockedStore "abc123" 5 sampleRequests
    (by decide) (by decide) (by decide)

/-- The responses of the sample run: each request is answered 500 and the stock of
`abc123` stays at 5. -/
theorem sampleRequests_outcome :
    (createAll sampleConfig stockedStore sampleRequests).2.map (fun r => r.status) =
      [500, 500] ∧
    (createAll sampleConfig stockedStore sampleRequests).1.products "abc123" = some ⟨5⟩ := by
  decide

/-! ## Order id generation -/

theorem preSave_orderId_of_existing (isNew totalModified : Bool) (idNow : Nat)
    (randomBase36 : String) (updatedNow : Nat) (o : Order)
    (h : isNew = false ∨ o.orderId ≠ "") :
    (preSave isNew totalModified idNow randomBase36 updatedNow o).orderId = o.orderId := by
  have hc : (isNew && o.orderId == "") = false := by
    rcases h with h | h
    · simp [h]
    · simp [h]
  unfold preSave preSaveTax preSaveOrderId
  simp only [hc]
  split <;> rfl

/-- The generator of the id hook at two draws: with `Date.now() = 1700000123456` and the
draw 0.5 (printed `0.i` in base 36) the hook, run on a new document without an id, sets
`DAISY123456I`, of length 12 with one character after the six digits; with the draw 0
(printed `0`) the id is `DAISY123456`. -/
theorem generateOrderId_short_suffix :
    (preSaveOrderId true 1700000123456 "0.i" 1700000123457
      (newOrder sampleConfig "alice" sampleCustomer [line (.num 42) 100] 1000
        1700000123456)).orderId = "DAISY123456I" ∧
    (generateOrderId 1700000123456 "0.i").length = 12 ∧
    generateOrderId 1700000123456 "0" = "DAISY123456" := by
  refine ⟨by decide, by decide, by decide⟩

/-- C9, evaluated at a creation request (100 units of the mock product 42, complete
customer details, total 1000): the document the route builds has no `orderId`,
validation rejects it before the id hook can run, and the route answers 500 with
nothing persisted: no id is generated for the new order. -/
theorem orderId_not_generated :
    (newOrder sampleConfig "alice" sampleCustomer [line (.num 42) 100] 1000
      (orderDateOr mockBody.orderDate sampleEnv.newDate)).orderId = "" ∧
    validateBeforeSave (newOrder sampleConfig "alice" sampleCustomer [line (.num 42) 100] 1000
      (orderDateOr mockBody.orderDate sampleEnv.newDate)) = false ∧
    (createOrder sampleConfig sampleEnv stockedStore "alice" mockBody).2.status = 500 ∧
    (createOrder sampleConfig sampleEnv stockedStore "alice" mockBody).1.orders.map
      (fun o => o.orderId) = [] := by
  refine ⟨by decide, by decide, by decide, by decide⟩

/-! ## The routes as store transformers -/

theorem findOrder_mem {orders : List Order} {orderId : String} {order : Order}
    (h : findOrder orders orderId = some order) : order ∈ orders :=
  List.mem_of_find?_eq_some h

theorem findOrder_orderId {orders : List Order} {orderId : String} {order : Order}
    (h : findOrder orders orderId = some order) : order.orderId = orderId := by
  have := List.find?_some h
  simpa using this

theorem mem_replaceOrder {orderId : String} {o' x : Order} {orders : List Order}
    (h : x ∈ replaceOrder orderId o' orders) : x ∈ orders ∨ x = o' := by
  induction orders with
  | nil => simp [replaceOrder] at h
  | cons o rest ih =>
    unfold replaceOrder at h
    split at h
    · rcases List.mem_cons.mp h with h | h
      · exact Or.inr h
      · exact Or.inl (List.mem_cons_of_mem _ h)
    · rcases List.mem_cons.mp h with h | h
      · exact Or.inl (h ▸ List.mem_cons_self _ _)
      · rcases ih h with h | h
        · exact Or.inl (List.mem_cons_of_mem _ h)
        · exact Or.inr h

theorem getElem?_replaceOrder (orderId : String) (o' : Order) (orders : List Order) (i : Nat)
    (y : Order) (h : orders[i]? = some y) :
    ∃ x, (replaceOrder orderId o' orders)[i]? = some x ∧
      (x = y ∨ (x = o' ∧ findOrder orders orderId = some y)) := by
  induction orders generalizing i with
  | nil => simp at h
  | cons o rest ih =>
    unfold replaceOrder
    by_cases hm : (o.orderId == orderId) = true
    · simp only [hm, if_true]
      cases i with
      | zero =>
        simp only [List.getElem?_cons_zero, Option.some.injEq] at h
        refine ⟨o', by simp, Or.inr ⟨rfl, ?_⟩⟩
        subst h
        simp [findOrder, List.find?, hm]
      | succ j =>
        simp only [List.getElem?_cons_succ] at h
        exact ⟨y, by simpa using h, Or.inl rfl⟩
    · simp only [hm]
      cases i with
      | zero =>
        simp only [List.getElem?_cons_zero, Option.some.injEq] at h
        exact ⟨y, by simp [h], Or.inl rfl⟩
      | succ j =>
        simp only [List.getElem?_cons_succ] at h
        obtain ⟨x, hx, hcase⟩ := ih j h
        refine ⟨x, by simpa using hx, ?_⟩
        rcases hcase with hcase | ⟨h1, h2⟩
        · exact Or.inl hcase
        · refine Or.inr ⟨h1, ?_⟩
          have hm' : (o.orderId == orderId) = false := by simpa using hm
          simpa [findOrder, List.find?, hm'] using h2

theorem findOrder_replaceOrder {orderId : String} {o' order : Order} {orders : List Order}
    (h : findOrder orders orderId = some order) (hid : o'.orderId = orderId) :
    findOrder (replaceOrder orderId o' orders) orderId = some o' := by
  induction orders with
  | nil => simp [findOrder] at h
  | cons o rest ih =>
    unfold replaceOrder
    by_cases hm : (o.orderId == orderId) = true
    · simp [hm, findOrder, List.find?, hid]
    · have hm' : (o.orderId == orderId) = false := by simpa using hm
      have h' : findOrder rest orderId = some order := by
        simpa [findOrder, List.find?, hm'] using h
      have := ih h'
      simpa [hm, findOrder, List.find?, hm'] using this

theorem preSave_existing (now a : Nat) (b : String) (o : Order) :
    preSave false false a b now o = { o with updatedAt := now } := by
  simp [preSave, preSaveTax, preSaveOrderId]

theorem preSave_new (totalModified : Bool) (idNow : Nat) (random : String) (now : Nat)
    (o : Order) :
    preSave true totalModified idNow random now o =
      { o with
        orderId := if o.orderId = "" then generateOrderId idNow random else o.orderId
        updatedAt := now
        taxAmount := o.totalAmount * (18 / 100) } := by
  by_cases h : o.orderId = "" <;> simp [preSave, preSaveTax, preSaveOrderId, h]

theorem verifyPayment_orders (cfg : Config) (now : Nat) (st : Store) (userId : String)
    (body : VerifyBody) :
    (verifyPayment cfg now st userId body).1 = st ∨
    ∃ orderId order O P sig, findOrder st.orders orderId = some order ∧
      (verifyPayment cfg now st userId body).1 =
        ⟨replaceOrder orderId (markPaid now O P sig order) st.orders, st.products⟩ := by
  unfold verifyPayment
  split
  · exact Or.inl rfl
  · simp only []
    split
    · exact Or.inl rfl
    · split
      · exact Or.inl rfl
      · rename_i order hfind
        split
        · exact Or.inl rfl
        · exact Or.inr ⟨body.orderId.getD "", order, body.razorpay_order_id.getD "",
            body.razorpay_payment_id.getD "", body.razorpay_signature.getD "", hfind,
            by simp [preSave_existing, markPaid]⟩

theorem updatePaymentStatus_eq (now : Nat) (st : Store) (userId orderId : String)
    (body : UpdatePaymentBody) :
    updatePaymentStatus now st userId orderId body =
      match findOrder st.orders orderId with
      | none => (st, orderNotFound)
      | some order =>
        if order.customerDetails.userId ≠ userId then (st, accessDenied)
        else if paymentStatusValid body.paymentStatus then
          (⟨replaceOrder orderId (readBack (applyPaymentUpdate now body order)) st.orders,
              st.products⟩,
            ⟨200, true, "Payment status updated successfully",
              Payload.order (applyPaymentUpdate now body order)⟩)
        else (st, updateFailed) := by
  unfold updatePaymentStatus
  cases hf : findOrder st.orders orderId with
  | none => rfl
  | some order =>
    by_cases hown : order.customerDetails.userId = userId
    · cases hpd : body.paymentDetails <;> by_cases hp : body.paymentStatus = some "paid" <;>
        by_cases hv : paymentStatusValid body.paymentStatus = true <;>
        simp [hown, hpd, hp, hv, preSave_existing, applyPaymentUpdate]
    · simp [hown]

theorem updatePaymentStatus_orders (now : Nat) (st : Store) (userId orderId : String)
    (body : UpdatePaymentBody) :
    (updatePaymentStatus now st userId orderId body).1 = st ∨
    ∃ order, findOrder st.orders orderId = some order ∧
      order.customerDetails.userId = userId ∧
      paymentStatusValid body.paymentStatus = true ∧
      updatePaymentStatus now st userId orderId body =
        (⟨replaceOrder orderId (readBack (applyPaymentUpdate now body order)) st.orders,
            st.products⟩,
          ⟨200, true, "Payment status updated successfully",
            Payload.order (applyPaymentUpdate now body order)⟩) := by
  rw [updatePaymentStatus_eq]
  cases hf : findOrder st.orders orderId with
  | none => exact Or.inl rfl
  | some order =>
    by_cases hown : order.customerDetails.userId = userId
    · by_cases hv : paymentStatusValid body.paymentStatus = true
      · exact Or.inr ⟨order, rfl, hown, hv, by simp [hown, hv]⟩
      · left
        simp [hown, hv]
    · left
      simp [hown]

/-! ## Payment and order status -/

theorem readBack_paid {now : Nat} {body : UpdatePaymentBody} {order : Order}
    (h : (readBack (applyPaymentUpdate now body order)).paymentStatus = some "paid") :
    body.paymentStatus = some "paid" := by
  cases hb : body.paymentStatus with
  | none => simp [readBack, applyPaymentUpdate, hb] at h
  | some s =>
    have : s = "paid" := by simpa [readBack, applyPaymentUpdate, hb] using h
    rw [this]

theorem step_paidImpliesConfirmed (cfg : Config) (st : Store) (op : Op)
    (h : PaidImpliesConfirmed st) : PaidImpliesConfirmed (step cfg st op) := by
  cases op with
  | create env userId body =>
    simpa [step, createOrder_store] using h
  | verify now userId body =>
    rcases verifyPayment_orders cfg now st userId body with hs | ⟨id, order, O, P, sig, _, hs⟩
    · simpa [step, hs] using h
    · intro o ho hpaid
      simp only [step, hs] at ho
      rcases mem_replaceOrder ho with ho | ho
      · exact h o ho hpaid
      · subst ho
        simp [markPaid, confirmedOrLater]
  | updatePayment now userId orderId body =>
    rcases updatePaymentStatus_orders now st userId orderId body with hs | ⟨order, _, _, _, hs⟩
    · simpa [step, hs] using h
    · intro o ho hpaid
      simp only [step, hs] at ho
      rcases mem_replaceOrder ho with ho | ho
      · exact h o ho hpaid
      · subst ho
        have hb : body.paymentStatus = some "paid" := readBack_paid hpaid
        simp [readBack, applyPaymentUpdate, hb, confirmedOrLater]

theorem run_invariant (P : Store → Prop) (cfg : Config)
    (hstep : ∀ st op, P st → P (step cfg st op)) (st : Store) (h : P st) (ops : List Op) :
    P (run cfg st ops) := by
  induction ops generalizing st with
  | nil => exact h
  | cons op rest ih => exact ih (step cfg st op) (hstep st op h)

theorem step_orders_getElem? (cfg : Config) (st : Store) (op : Op) (i : Nat) (o : Order)
    (h : st.orders[i]? = some o) :
    ∃ o', (step cfg st op).orders[i]? = some o' ∧ o'.orderId = o.orderId ∧
      (o.orderStatus = "pending" → o'.orderStatus = "confirmed" →
        o'.paymentStatus = some "paid") := by
  have hkeep : ∀ s : Store, s.orders = st.orders →
      ∃ o', s.orders[i]? = some o' ∧ o'.orderId = o.orderId ∧
        (o.orderStatus = "pending" → o'.orderStatus = "confirmed" →
          o'.paymentStatus = some "paid") := by
    intro s hs
    refine ⟨o, by rw [hs]; exact h, rfl, ?_⟩
    intro h1 h2
    rw [h1] at h2
    exact absurd h2 (by decide)
  cases op with
  | create env userId body =>
    exact hkeep _ (by simp [step, createOrder_store])
  | verify now userId body =>
    rcases verifyPayment_orders cfg now st userId body with hs | ⟨id, order, O, P, sig, hf, hs⟩
    · exact hkeep _ (by simp [step, hs])
    · obtain ⟨x, hx, hcase⟩ := getElem?_replaceOrder id (markPaid now O P sig order) st.orders i o h
      rcases hcase with hxo | ⟨hxo, hfo⟩
      · subst hxo
        refine ⟨x, by simpa [step, hs] using hx, rfl, ?_⟩
        intro h1 h2
        rw [h1] at h2
        exact absurd h2 (by decide)
      · have hoo : order = o := by
          rw [hf] at hfo
          exact Option.some.inj hfo
        subst hoo
        refine ⟨x, by simpa [step, hs] using hx, by simp [hxo, markPaid], ?_⟩
        intro _ _
        simp [hxo, markPaid]
  | updatePayment now userId orderId body =>
    rcases updatePaymentStatus_orders now st userId orderId body with
      hs | ⟨order, hf, _, _, hs⟩
    · exact hkeep _ (by simp [step, hs])
    · obtain ⟨x, hx, hcase⟩ :=
        getElem?_replaceOrder orderId (readBack (applyPaymentUpdate now body order))
          st.orders i o h
      rcases hcase with hxo | ⟨hxo, hfo⟩
      · subst hxo
        refine ⟨x, by simpa [step, hs] using hx, rfl, ?_⟩
        intro h1 h2
        rw [h1] at h2
        exact absurd h2 (by decide)
      · have hoo : order = o := by
          rw [hf] at hfo
          exact Option.some.inj hfo
        subst hoo
        refine ⟨x, by simpa [step, hs] using hx, by simp [hxo, readBack, applyPaymentUpdate],
          ?_⟩
        intro h1 h2
        by_cases hb : body.paymentStatus = some "paid"
        · simp [hxo, readBack, applyPaymentUpdate, hb]
        · rw [hxo] at h2
          simp only [readBack, applyPaymentUpdate, hb, if_false] at h2
          rw [h1] at h2
          exact absurd h2 (by decide)

/-- C5: over every sequence of createOrder, verify payment and updatePaymentStatus
requests (any bodies, callers, clocks and draws) starting from an empty order
collection, every persisted order whose `paymentStatus` is `paid` has an `orderStatus`
among confirmed, processing, shipped, delivered; and in any single request, from any
store, a persisted order keeps its place and its id, and if its `orderStatus` goes
from `pending` to `confirmed` then the request left its `paymentStatus` at `paid`.
The invariant is also kept by every request from any store that satisfies it. -/
theorem paid_orders_are_confirmed (cfg : Config) :
    (∀ (products : ProductStore) (ops : List Op),
      ∀ o ∈ (run cfg ⟨[], products⟩ ops).orders,
        o.paymentStatus = some "paid" → o.orderStatus ∈ confirmedOrLater) ∧
    (∀ (st : Store) (op : Op) (i : Nat) (o : Order), st.orders[i]? = some o →
      ∃ o', (step cfg st op).orders[i]? = some o' ∧ o'.orderId = o.orderId ∧
        (o.orderStatus = "pending" → o'.orderStatus = "confirmed" →
          o'.paymentStatus = some "paid")) ∧
    (∀ (st : Store) (ops : List Op),
      (∀ o ∈ st.orders, o.paymentStatus = some "paid" → o.orderStatus ∈ confirmedOrLater) →
      ∀ o ∈ (run cfg st ops).orders,
        o.paymentStatus = some "paid" → o.orderStatus ∈ confirmedOrLater) := by
  refine ⟨?_, step_orders_getElem? cfg, fun st ops h =>
    run_invariant PaidImpliesConfirmed cfg (step_paidImpliesConfirmed cfg) st h ops⟩
  intro products ops
  exact run_invariant PaidImpliesConfirmed cfg (step_paidImpliesConfirmed cfg) ⟨[], products⟩
    (by intro o ho; simp at ho) ops

/-! ## Tax amount -/

theorem step_taxIsEighteenPercent (cfg : Config) (st : Store) (op : Op)
    (h : TaxIsEighteenPercent st) : TaxIsEighteenPercent (step cfg st op) := by
  cases op with
  | create env userId body =>
    simpa [step, createOrder_store] using h
  | verify now userId body =>
    rcases verifyPayment_orders cfg now st userId body with hs | ⟨id, order, O, P, sig, hf, hs⟩
    · simpa [step, hs] using h
    · intro o ho
      simp only [step, hs] at ho
      rcases mem_replaceOrder ho with ho | ho
      · exact h o ho
      · subst ho
        simpa [markPaid] using h order (findOrder_mem hf)
  | updatePayment now userId orderId body =>
    rcases updatePaymentStatus_orders now st userId orderId body with
      hs | ⟨order, hf, _, _, hs⟩
    · simpa [step, hs] using h
    · intro o ho
      simp only [step, hs] at ho
      rcases mem_replaceOrder ho with ho | ho
      · exact h o ho
      · subst ho
        simpa [readBack, applyPaymentUpdate] using h order (findOrder_mem hf)

/-- C7: over every sequence of createOrder, verify payment and updatePaymentStatus
requests starting from an empty order collection, whatever the request bodies hold,
every persisted order has `taxAmount = totalAmount * 18 / 100` in exact arithmetic;
each single request preserves this, so no request sets the tax to another value. -/
theorem tax_is_eighteen_percent (cfg : Config) :
    (∀ (products : ProductStore) (ops : List Op),
      ∀ o ∈ (run cfg ⟨[], products⟩ ops).orders, o.taxAmount = o.totalAmount * (18 / 100)) ∧
    (∀ (st : Store) (op : Op),
      (∀ o ∈ st.orders, o.taxAmount = o.totalAmount * (18 / 100)) →
      ∀ o ∈ (step cfg st op).orders, o.taxAmount = o.totalAmount * (18 / 100)) := by
  refine ⟨?_, fun st op h => step_taxIsEighteenPercent cfg st op h⟩
  intro products ops
  exact run_invariant TaxIsEighteenPercent cfg (step_taxIsEighteenPercent cfg) ⟨[], products⟩
    (by intro o ho; simp at ho) ops

/-! ## Successful verification -/

/-- C6: when the owner of a stored order sends a verify request whose four fields are
non-empty and whose signature is the expected one, the order found under that id is
replaced by itself with `paymentStatus = paid`, `orderStatus = confirmed`,
`paymentDetails` equal to the three supplied values and `updatedAt` refreshed, every
other field (orderId, customerDetails, items, totalAmount, taxAmount, paymentMethod
among them) as before; products are untouched; the response is the 200 success record
with the order's id and the supplied payment id. A second identical request on the
resulting store succeeds with the same response and leaves the same paymentStatus,
orderStatus and paymentDetails. -/
theorem verifyPayment_success (cfg : Config) (now now' : Nat) (st : Store) (userId : String)
    (O P sig orderId : String) (order : Order)
    (hO : O ≠ "") (hP : P ≠ "") (hsig : sig ≠ "") (hid : orderId ≠ "")
    (hvalid : sig = cfg.hmacSha256Hex (keySecret cfg) (O ++ "|" ++ P))
    (hfind : findOrder st.orders orderId = some order)
    (hown : order.customerDetails.userId = userId) :
    verifyPayment cfg now st userId ⟨some O, some P, some sig, some orderId⟩ =
      (⟨replaceOrder orderId
          { order with
            paymentStatus := some "paid"
            paymentDetails := ⟨some O, some P, some sig⟩
            orderStatus := "confirmed"
            updatedAt := now } st.orders, st.products⟩,
        ⟨200, true, "Payment verified successfully", Payload.verified order.orderId P⟩) ∧
    findOrder (verifyPayment cfg now st userId ⟨some O, some P, some sig, some orderId⟩).1.orders
        orderId =
      some { order with
        paymentStatus := some "paid"
        paymentDetails := ⟨some O, some P, some sig⟩
        orderStatus := "confirmed"
        updatedAt := now } ∧
    (verifyPayment cfg now' (verifyPayment cfg now st userId
        ⟨some O, some P, some sig, some orderId⟩).1 userId
        ⟨some O, some P, some sig, some orderId⟩).2 =
      ⟨200, true, "Payment verified successfully", Payload.verified order.orderId P⟩ ∧
    findOrder (verifyPayment cfg now' (verifyPayment cfg now st userId
        ⟨some O, some P, some sig, some orderId⟩).1 userId
        ⟨some O, some P, some sig, some orderId⟩).1.orders orderId =
      some { order with
        paymentStatus := some "paid"
        paymentDetails := ⟨some O, some P, some sig⟩
        orderStatus := "confirmed"
        updatedAt := now' } := by
  have hexp : expectedSignature cfg O P = sig := by rw [hvalid]; rfl
  have h1 : verifyPayment cfg now st userId ⟨some O, some P, some sig, some orderId⟩ =
      (⟨replaceOrder orderId (markPaid now O P sig order) st.orders, st.products⟩,
        ⟨200, true, "Payment verified successfully", Payload.verified order.orderId P⟩) := by
    rw [verifyPayment_of_present cfg now st userId O P sig orderId hO hP hsig hid]
    simp [hexp, hfind, hown, preSave_existing, markPaid]
  have hf1 : findOrder (replaceOrder orderId (markPaid now O P sig order) st.orders) orderId =
      some (markPaid now O P sig order) :=
    findOrder_replaceOrder hfind (by simpa [markPaid] using findOrder_orderId hfind)
  have h2 : verifyPayment cfg now'
      ⟨replaceOrder orderId (markPaid now O P sig order) st.orders, st.products⟩ userId
      ⟨some O, some P, some sig, some orderId⟩ =
      (⟨replaceOrder orderId (markPaid now' O P sig order)
          (replaceOrder orderId (markPaid now O P sig order) st.orders), st.products⟩,
        ⟨200, true, "Payment verified successfully", Payload.verified order.orderId P⟩) := by
    rw [verifyPayment_of_present cfg now' _ userId O P sig orderId hO hP hsig hid]
    simp only [hf1]
    simp [hexp, hown, preSave_existing, markPaid]
  have hf2 : findOrder (replaceOrder orderId (markPaid now' O P sig order)
      (replaceOrder orderId (markPaid now O P sig order) st.orders)) orderId =
      some (markPaid now' O P sig order) :=
    findOrder_replaceOrder hf1 (by simpa [markPaid] using findOrder_orderId hfind)
  refine ⟨?_, ?_, ?_, ?_⟩
  · simpa [markPaid] using h1
  · rw [h1]
    simpa [markPaid] using hf1
  · rw [h1, h2]
  · rw [h1, h2]
    simpa [markPaid] using hf2

/-- C6 at the sample store: `alice` verifies her order with a correctly signed request. -/
theorem verifyPayment_success_witness :
    verifyPayment sampleConfig 8 sampleStore "alice" signedBody =
      (⟨replaceOrder "DAISY123456ABCDE"
          { sampleOrder with
            paymentStatus := some "paid"
            paymentDetails := ⟨some "order_1", some "pay_1", some "s3cret/order_1|pay_1"⟩
            orderStatus := "confirmed"
            updatedAt := 8 } sampleStore.orders, sampleStore.products⟩,
        ⟨200, true, "Payment verified successfully",
          Payload.verified sampleOrder.orderId "pay_1"⟩) ∧
    findOrder (verifyPayment sampleConfig 8 sampleStore "alice" signedBody).1.orders
        "DAISY123456ABCDE" =
      some { sampleOrder with
        paymentStatus := some "paid"
        paymentDetails := ⟨some "order_1", some "pay_1", some "s3cret/order_1|pay_1"⟩
        orderStatus := "confirmed"
        updatedAt := 8 } ∧
    (verifyPayment sampleConfig 9 (verifyPayment sampleConfig 8 sampleStore "alice"
        signedBody).1 "alice" signedBody).2 =
      ⟨200, true, "Payment verified successfully",
        Payload.verified sampleOrder.orderId "pay_1"⟩ ∧
    findOrder (verifyPayment sampleConfig 9 (verifyPayment sampleConfig 8 sampleStore "alice"
        signedBody).1 "alice" signedBody).1.orders "DAISY123456ABCDE" =
      some { sampleOrder with
        paymentStatus := some "paid"
        paymentDetails := ⟨some "order_1", some "pay_1", some "s3cret/order_1|pay_1"⟩
        orderStatus := "confirmed"
        updatedAt := 9 } :=
  verifyPayment_success sampleConfig 8 9 sampleStore "alice" "order_1" "pay_1"
    "s3cret/order_1|pay_1" "DAISY123456ABCDE" sampleOrder (by decide) (by decide) (by decide)
    (by decide) (by decide) rfl (by decide)

/-! ## A sample run -/

theorem sampleOps_statuses :
    (sampleStore.orders.map (fun o => (o.orderId, o.paymentStatus, o.orderStatus)) =
      [("DAISY123456ABCDE", some "pending", "pending")]) ∧
    ((run sampleConfig sampleStore (sampleOps.take 1)).orders.map
        (fun o => (o.orderId, o.paymentStatus, o.orderStatus)) =
      [("DAISY123456ABCDE", some "paid", "confirmed")]) ∧
    ((run sampleConfig sampleStore sampleOps).orders.map
        (fun o => (o.orderId, o.paymentStatus, o.orderStatus)) =
      [("DAISY123456ABCDE", some "failed", "confirmed")]) := by
  decide

/-- A payment-status update whose status is not one of the schema's values is answered
500 and leaves the store as it was; one without a status is stored as `pending`. -/
theorem updatePaymentStatus_samples :
    (updatePaymentStatus 7 sampleStore "alice" "DAISY123456ABCDE" ⟨some "bogus", none⟩).2 =
      updateFailed ∧
    (updatePaymentStatus 7 sampleStore "alice" "DAISY123456ABCDE"
        ⟨some "bogus", none⟩).1.orders.map (fun o => (o.paymentStatus, o.updatedAt)) =
      [(some "pending", 1700000000000)] ∧
    (updatePaymentStatus 7 (run sampleConfig sampleStore (sampleOps.take 1)) "alice"
        "DAISY123456ABCDE" ⟨none, none⟩).1.orders.map
        (fun o => (o.paymentStatus, o.orderStatus)) =
      [(some "pending", "confirmed")] := by
  decide

/-! ## Where payment details come from -/

theorem run_append_singleton (cfg : Config) (st : Store) (ops : List Op) (op : Op) :
    run cfg st (ops ++ [op]) = step cfg (run cfg st ops) op := by
  simp [run, List.foldl_append]

theorem verifyPayment_cases (cfg : Config) (now : Nat) (st : Store) (userId : String)
    (body : VerifyBody) :
    (verifyPayment cfg now st userId body).1 = st ∨
    (verifySucceeds cfg st userId body = true ∧
      ∃ orderId order, body.orderId = some orderId ∧ findOrder st.orders orderId = some order ∧
        (verifyPayment cfg now st userId body).1 =
          ⟨replaceOrder orderId (markPaid now (body.razorpay_order_id.getD "")
            (body.razorpay_payment_id.getD "") (body.razorpay_signature.getD "") order)
            st.orders, st.products⟩) := by
  by_cases h1 : (falsyStr body.razorpay_order_id || falsyStr body.razorpay_payment_id ||
      falsyStr body.razorpay_signature || falsyStr body.orderId) = true
  · left
    unfold verifyPayment
    rw [if_pos h1]
  · by_cases h2 : expectedSignature cfg (body.razorpay_order_id.getD "")
        (body.razorpay_payment_id.getD "") = body.razorpay_signature.getD ""
    · cases hf : findOrder st.orders (body.orderId.getD "") with
      | none =>
        left
        unfold verifyPayment
        rw [if_neg h1]
        simp [h2, hf]
      | some order =>
        by_cases h3 : order.customerDetails.userId = userId
        · right
          have hid : body.orderId = some (body.orderId.getD "") := by
            cases hb : body.orderId with
            | none => simp [hb, falsyStr] at h1
            | some s => simp
          refine ⟨?_, body.orderId.getD "", order, hid, hf, ?_⟩
          · unfold verifySucceeds
            simp only [hf]
            simp [h1, h2, h3]
          · unfold verifyPayment
            rw [if_neg h1]
            simp [h2, hf, h3, preSave_existing, markPaid]
        · left
          unfold verifyPayment
          rw [if_neg h1]
          simp [h2, hf, h3]
    · left
      unfold verifyPayment
      rw [if_neg h1]
      simp [h2]

theorem step_paymentDetails_source (cfg : Config) (st : Store) (op : Op) (o : Order)
    (ho : o ∈ (step cfg st op).orders) (hpop : o.paymentDetails ≠ ⟨none, none, none⟩) :
    writesPaymentDetails cfg st o.orderId op = true ∨
    ∃ o0 ∈ st.orders, o0.orderId = o.orderId ∧ o0.paymentDetails ≠ ⟨none, none, none⟩ := by
  cases op with
  | create env userId body =>
    exact Or.inr ⟨o, by simpa [step, createOrder_store] using ho, rfl, hpop⟩
  | verify now userId body =>
    rcases verifyPayment_cases cfg now st userId body with hs | ⟨hok, id, order, hid, hf, hs⟩
    · exact Or.inr ⟨o, by simpa [step, hs] using ho, rfl, hpop⟩
    · simp only [step, hs] at ho
      rcases mem_replaceOrder ho with ho | ho
      · exact Or.inr ⟨o, ho, rfl, hpop⟩
      · left
        have hoid : o.orderId = id := by
          rw [ho]
          simpa [markPaid] using findOrder_orderId hf
        simp [writesPaymentDetails, hok, hid, hoid]
  | updatePayment now userId orderId body =>
    rcases updatePaymentStatus_orders now st userId orderId body with
      hs | ⟨order, hf, hown, hv, hs⟩
    · exact Or.inr ⟨o, by simpa [step, hs] using ho, rfl, hpop⟩
    · simp only [step, hs] at ho
      rcases mem_replaceOrder ho with ho | ho
      · exact Or.inr ⟨o, ho, rfl, hpop⟩
      · have hoid : o.orderId = orderId := by
          rw [ho]
          simpa [readBack, applyPaymentUpdate] using findOrder_orderId hf
        cases hb : body.paymentDetails with
        | some pd =>
          left
          simp [writesPaymentDetails, ownsOrder, hf, hown, hb, hoid, hv]
        | none =>
          right
          refine ⟨order, findOrder_mem hf, ?_, ?_⟩
          · rw [hoid]
            exact findOrder_orderId hf
          · have : o.paymentDetails = order.paymentDetails := by
              rw [ho]
              simp [readBack, applyPaymentUpdate, hb]
            rw [← this]
            exact hpop

theorem run_paymentDetails_source (cfg : Config) (st : Store) (ops : List Op) (o : Order)
    (ho : o ∈ (run cfg st ops).orders) (hpop : o.paymentDetails ≠ ⟨none, none, none⟩) :
    (∃ o0 ∈ st.orders, o0.orderId = o.orderId ∧ o0.paymentDetails ≠ ⟨none, none, none⟩) ∨
    ∃ pre op post, ops = pre ++ op :: post ∧
      writesPaymentDetails cfg (run cfg st pre) o.orderId op = true := by
  induction ops using List.reverseRecOn generalizing o with
  | nil => exact Or.inl ⟨o, by simpa [run] using ho, rfl, hpop⟩
  | append_singleton pre op ih =>
    rw [run_append_singleton] at ho
    rcases step_paymentDetails_source cfg _ op o ho hpop with hw | ⟨o0, ho0, hid, hpop0⟩
    · exact Or.inr ⟨pre, op, [], rfl, hw⟩
    · rcases ih o0 ho0 hpop0 with ⟨o1, ho1, hid1, hpop1⟩ | ⟨pre', op', post', hsplit, hw⟩
      · exact Or.inl ⟨o1, ho1, hid1.trans hid, hpop1⟩
      · refine Or.inr ⟨pre', op', post' ++ [op], ?_, ?_⟩
        · rw [hsplit]
          simp
        · rw [← hid]
          exact hw

/-- C11 fails as stated: on the sample store, whose order is stored without payment
details, `alice` sends a payment-status update for it that carries payment details;
the sequence holds no verification request, and the stored order ends with those
details populated (and `paymentStatus = paid`). -/
theorem paymentDetails_populated_without_verification :
    unverifiedOps.all (fun op => !op.isVerify) = true ∧
    sampleStore.orders.map (fun o => (o.orderId, o.paymentStatus, o.paymentDetails)) =
      [("DAISY123456ABCDE", some "pending", ⟨none, none, none⟩)] ∧
    (run sampleConfig sampleStore unverifiedOps).orders.map
        (fun o => (o.orderId, o.paymentStatus, o.paymentDetails)) =
      [("DAISY123456ABCDE", some "paid",
        ⟨some "order_x", some "pay_x", some "not-a-signature"⟩)] := by
  decide

/-- C11, amended: over every sequence of createOrder, verify payment and
updatePaymentStatus requests on a store in which the order has no payment details yet,
the stored order has populated `paymentDetails` afterwards only if some earlier request
of the sequence, on the store it met, was a successful verification of that order
(fields present, valid signature, caller is owner) or a payment-status update of that
order by its owner carrying `paymentDetails` and a status the schema admits;
createOrder, failed or foreign requests and updates without `paymentDetails` populate
nothing. -/
theorem paymentDetails_only_from_writes (cfg : Config) (st : Store) (ops : List Op)
    (o : Order)
    (hfresh : ∀ o0 ∈ st.orders, o0.orderId = o.orderId →
      o0.paymentDetails = ⟨none, none, none⟩)
    (ho : o ∈ (run cfg st ops).orders)
    (hpop : o.paymentDetails ≠ ⟨none, none, none⟩) :
    ∃ pre op post, ops = pre ++ op :: post ∧
      writesPaymentDetails cfg (run cfg st pre) o.orderId op = true := by
  rcases run_paymentDetails_source cfg st ops o ho hpop with ⟨o0, ho0, hid, hpop0⟩ | h
  · exact absurd (hfresh o0 ho0 hid) hpop0
  · exact h

/-- C11 amended, at the sample run on the sample store: the order left by `sampleOps`
has payment details, and the run holds a request that wrote them. -/
theorem paymentDetails_only_from_writes_witness :
    ∃ pre op post, sampleOps = pre ++ op :: post ∧
      writesPaymentDetails sampleConfig (run sampleConfig sampleStore pre)
        sampleFinalOrder.orderId op = true :=
  paymentDetails_only_from_writes sampleConfig sampleStore sampleOps sampleFinalOrder
    (fun o0 ho0 _ => by
      have : o0 = sampleOrder := by simpa [sampleStore] using ho0
      rw [this]
      rfl)
    (List.mem_singleton.mpr rfl) (by decide)

/-! ## Creation fails at `save()` -/

/-- C10, evaluated at the request of the specification's scenario (100 units of the
mock product 42, complete customer details, total 1000): the request passes input
validation and, whatever the product collection holds, the availability loop, but the
route answers 500 'Failed to create order' and returns the store as it was: no order is
created. -/
theorem createOrder_mock_items_not_created :
    validateCreate mockBody = .ok (sampleCustomer, [line (.num 42) 100], 1000) ∧
    (∀ products : ProductStore, checkAvailability products [line (.num 42) 100] = none) ∧
    createOrder sampleConfig sampleEnv stockedStore "alice" mockBody =
      (stockedStore, createFailed) ∧
    createFailed.status = 500 ∧ createFailed.message = "Failed to create order" :=
  ⟨rfl, fun products => checkAvailability_of_all_mock products _ (by simp [line, isMockProduct]),
    createOrder_of_available sampleConfig sampleEnv stockedStore "alice" mockBody sampleCustomer
      [line (.num 42) 100] 1000 rfl rfl,
    rfl, rfl⟩

/-! ## Notifications -/

theorem sendOrderNotification_of_error (cfg : Config) (transport : Transport)
    (d : OrderDetails) (e : String)
    (h : transport ⟨cfg.EMAIL_USER,
        if falsyStr cfg.OWNER_EMAIL then cfg.EMAIL_USER else cfg.OWNER_EMAIL,
        "New Order Received - " ++ d.orderId⟩ = .error e) :
    sendOrderNotification cfg transport d = MailResult.failed e := by
  simp [sendOrderNotification, h]

theorem sendCustomerConfirmation_of_error (cfg : Config) (transport : Transport)
    (d : OrderDetails) (e : String)
    (h : transport ⟨cfg.EMAIL_USER, some d.customerDetails.email,
        "Order Confirmation - " ++ d.orderId⟩ = .error e) :
    sendCustomerConfirmation cfg transport d = MailResult.failed e := by
  simp [sendCustomerConfirmation, h]

theorem createOrder_same_for_every_transport (cfg : Config) (env : CreateEnv) (st : Store)
    (userId : String) (body : CreateBody) (transport : Transport) :
    createOrder cfg { env with transport := transport } st userId body =
      createOrder cfg env st userId body := by
  cases hv : validateCreate body with
  | error r => simp [createOrder, hv]
  | ok triple =>
    obtain ⟨cd, items, total⟩ := triple
    cases ha : checkAvailability st.products items with
    | some r => simp [createOrder, hv, ha]
    | none =>
      rw [createOrder_of_available cfg _ st userId body cd items total hv ha,
        createOrder_of_available cfg env st userId body cd items total hv ha]

/-- C12, evaluated at a request for 2 units of `abc123` against a stock of 5: the
request passes input validation and the availability loop, and for every mail
transport the route gives the same answer, but that answer is the 500 'Failed to create
order' with the store as it was, not a 201; the two send operations, given a transport
that raises, return the failure record with the error message. -/
theorem createOrder_fails_for_every_transport :
    validateCreate inStockBody = .ok (sampleCustomer, [line (.str "abc123") 2], 20) ∧
    checkAvailability stockedStore.products [line (.str "abc123") 2] = none ∧
    (∀ transport : Transport,
      createOrder sampleConfig { sampleEnv with transport := transport } stockedStore "alice"
        inStockBody = (stockedStore, createFailed)) ∧
    createFailed.status = 500 ∧
    (∀ d : OrderDetails,
      sendOrderNotification sampleConfig sampleEnv.transport d =
        MailResult.failed "connection refused") ∧
    (∀ d : OrderDetails,
      sendCustomerConfirmation sampleConfig sampleEnv.transport d =
        MailResult.failed "connection refused") :=
  ⟨rfl, by decide,
    fun transport => createOrder_of_available sampleConfig _ stockedStore "alice" inStockBody
      sampleCustomer [line (.str "abc123") 2] 20 rfl (by decide),
    rfl, fun _ => rfl, fun _ => rfl⟩

/-! ## Ownership and initial status of a created order -/

/-- C13: whatever the request, every order that the create route adds to the
collection, together with the 201 that returns it, has `customerDetails.userId` equal
to the caller's identity and `paymentStatus` and `orderStatus` both `pending`; and for
every request that passes input validation, the document the route builds from
`customerDetails`, `items`, `totalAmount` and `orderDate` has the caller as
`customerDetails.userId`, whatever `userId` the request's own `customerDetails` names,
and both statuses `pending`, which the pre-save hooks leave as they are. -/
theorem createOrder_owner_and_initial_status (cfg : Config) (env : CreateEnv) (st : Store)
    (userId : String) (body : CreateBody) :
    ((createOrder cfg env st userId body).1.orders = st.orders ∨
      ∃ order : Order,
        (createOrder cfg env st userId body).1.orders = st.orders ++ [order] ∧
        (createOrder cfg env st userId body).2 =
          ⟨201, true, "Order created successfully", Payload.created order.orderId order⟩ ∧
        order.customerDetails.userId = userId ∧
        order.paymentStatus = some "pending" ∧ order.orderStatus = "pending") ∧
    (∀ (cd : CustomerInput) (items : List Item) (total : ℚ),
      validateCreate body = .ok (cd, items, total) →
      (newOrder cfg userId cd items total
        (orderDateOr body.orderDate env.newDate)).customerDetails.userId = userId ∧
      (newOrder cfg userId cd items total
        (orderDateOr body.orderDate env.newDate)).paymentStatus = some "pending" ∧
      (newOrder cfg userId cd items total
        (orderDateOr body.orderDate env.newDate)).orderStatus = "pending" ∧
      (preSave true false env.idNow env.randomBase36 env.updatedNow
        (newOrder cfg userId cd items total
          (orderDateOr body.orderDate env.newDate))).customerDetails.userId = userId ∧
      (preSave true false env.idNow env.randomBase36 env.updatedNow
        (newOrder cfg userId cd items total
          (orderDateOr body.orderDate env.newDate))).paymentStatus = some "pending" ∧
      (preSave true false env.idNow env.randomBase36 env.updatedNow
        (newOrder cfg userId cd items total
          (orderDateOr body.orderDate env.newDate))).orderStatus = "pending") := by
  constructor
  · unfold createOrder
    split
    · exact Or.inl rfl
    · split
      · exact Or.inl rfl
      · rename_i cd items total _ _ _
        simp only []
        by_cases hsave : validateBeforeSave (newOrder cfg userId cd items total
            (orderDateOr body.orderDate env.newDate)) = true
        · rw [if_pos hsave]
          refine Or.inr ⟨_, rfl, rfl, ?_, ?_, ?_⟩ <;> simp [preSave_new, newOrder]
        · rw [if_neg hsave]
          exact Or.inl rfl
  · intro cd items total _
    refine ⟨?_, ?_, ?_, ?_, ?_, ?_⟩ <;> simp [preSave_new, newOrder]

/-- C13 at a concrete request: `alice` sends a body whose `customerDetails` names
`mallory`; the document the route builds belongs to `alice` and is pending. -/
theorem createOrder_owner_and_initial_status_witness :
    spoofedBody.customerDetails = some { sampleCustomer with userId := some "mallory" } ∧
    spoofedDocument.customerDetails.userId = "alice" ∧
    spoofedDocument.paymentStatus = some "pending" ∧
    spoofedDocument.orderStatus = "pending" :=
  ⟨rfl,
    ((createOrder_owner_and_initial_status sampleConfig sampleEnv stockedStore "alice"
      spoofedBody).2 _ _ _ rfl).1,
    ((createOrder_owner_and_initial_status sampleConfig sampleEnv stockedStore "alice"
      spoofedBody).2 _ _ _ rfl).2.1,
    ((createOrder_owner_and_initial_status sampleConfig sampleEnv stockedStore "alice"
      spoofedBody).2 _ _ _ rfl).2.2.1⟩

end Daisyverse
